import Mathlib

/-!
Verification development for the XPlane2Blender manipulator classification,
animation-validation and attribute-emission engine
(`io_xplane2blender/xplane_types/xplane_manipulator.py`), the numeric
formatter (`xplane_helpers.floatToStr`) and the attribute carrier
(`xplane_types/xplane_attribute.py`).

Python floats are modelled as exact rational numbers represented by an
unnormalized fraction `PyFloat` (numerator and denominator, denominator
kept positive by construction); Python float comparison operators are the
cross-multiplication comparisons `PyFloat.beq` / `blt` / `ble`; Python
`round` is round-half-to-even on the rational value.  Fallible Python
operations (attribute errors, index errors, assertion failures,
`StopIteration`, `raise`) are modelled with an explicit `PyError`.
-/

/-- An exact rational standing in for a Python float.  The fraction is not
normalized; all constructions in this file keep `den` positive. -/
structure PyFloat where
  num : ℤ
  den : ℤ
deriving DecidableEq, Repr

instance (n : ℕ) : OfNat PyFloat n := ⟨⟨n, 1⟩⟩

instance : Neg PyFloat := ⟨fun a => ⟨-a.num, a.den⟩⟩

instance : Add PyFloat := ⟨fun a b => ⟨a.num * b.den + b.num * a.den, a.den * b.den⟩⟩

instance : Sub PyFloat := ⟨fun a b => ⟨a.num * b.den - b.num * a.den, a.den * b.den⟩⟩

instance : Mul PyFloat := ⟨fun a b => ⟨a.num * b.num, a.den * b.den⟩⟩

/-- Python `==` on floats (numeric equality; valid for positive denominators). -/
def PyFloat.beq (a b : PyFloat) : Bool := a.num * b.den == b.num * a.den

/-- Python `<` on floats (valid for positive denominators). -/
def PyFloat.blt (a b : PyFloat) : Bool := a.num * b.den < b.num * a.den

/-- Python `<=` on floats (valid for positive denominators). -/
def PyFloat.ble (a b : PyFloat) : Bool := a.num * b.den ≤ b.num * a.den

/-- Mathematical floor of the fraction (valid for positive denominators). -/
def PyFloat.qfloor (x : PyFloat) : ℤ := Int.fdiv x.num x.den

/-- Python `int(x)`: truncation toward zero. -/
def PyFloat.trunc (x : PyFloat) : ℤ := Int.tdiv x.num x.den

/-- Round a fraction half-to-even to the nearest integer, as Python `round`
does. -/
def PyFloat.rhe (x : PyFloat) : ℤ :=
  let f : ℤ := x.qfloor
  let r : PyFloat := x - ⟨f, 1⟩
  if r.blt ⟨1, 2⟩ then f
  else if PyFloat.blt ⟨1, 2⟩ r then f + 1
  else if f % 2 = 0 then f else f + 1

/-- Python `round(x, n)`: round to `n` decimal digits, half to even. -/
def pyround (x : PyFloat) (n : ℕ) : PyFloat :=
  ⟨PyFloat.rhe ⟨x.num * 10 ^ n, x.den⟩, 10 ^ n⟩

/-- Largest `k` with `k * k ≤ n` (0 for negative `n`).  Executable integer
square root used to model the float square root in `Vector.magnitude`;
exact on the perfect squares that appear in this file. -/
def intSqrt (n : ℤ) : ℤ :=
  Int.ofNat (((List.range (n.toNat + 2)).filter
    (fun k : ℕ => decide ((k : ℤ) * (k : ℤ) ≤ n))).getLast?.getD 0)

/-- A 3-vector, modelling `mathutils.Vector` as used by the classifier
(locations, rotation axes). -/
structure Vec3 where
  x : PyFloat
  y : PyFloat
  z : PyFloat
deriving DecidableEq, Repr

/-- Componentwise vector difference (`v - w` on `mathutils.Vector`). -/
def Vec3.sub (a b : Vec3) : Vec3 :=
  ⟨a.x - b.x, a.y - b.y, a.z - b.z⟩

/-- Dot product (`Vector.dot`). -/
def Vec3.dot (a b : Vec3) : PyFloat :=
  a.x * b.x + a.y * b.y + a.z * b.z

/-- `Vector.magnitude`, modelled by the exact square root of the exact sum
of squares: `sqrt(n/d) = intSqrt (n * d) / d` for positive `d`.  Every
concrete run in this file takes the magnitude of an axis-aligned unit
displacement, where this agrees with the float computation. -/
def Vec3.magnitude (v : Vec3) : PyFloat :=
  let s : PyFloat := v.dot v
  ⟨intSqrt (s.num * s.den), s.den⟩

/-- `xplane_helpers.vec_b_to_x`: Blender up-is-Z to X-Plane up-is-Y,
`(x, y, z) -> (x, z, -y)`. -/
def vec_b_to_x (v : Vec3) : Vec3 :=
  ⟨v.x, v.z, -v.y⟩

/-- One entry of a per-axis rotation keyframe table: a `(value, degrees)`
pair, as produced by `XPlaneKeyframeCollection.getRotationKeyframeTable`. -/
structure TableEntry where
  value : PyFloat
  degrees : PyFloat
deriving DecidableEq, Repr

/-- One entry of a translation keyframe table: a `(value, location)` pair. -/
structure TranslationKeyframe where
  value : PyFloat
  location : Vec3
deriving DecidableEq, Repr

/-- Python `==` on two rotation-table entries (namedtuple comparison:
componentwise float equality). -/
def TableEntry.beq (a b : TableEntry) : Bool :=
  a.value.beq b.value && a.degrees.beq b.degrees

/-- Python `<=` on two rotation-table entries (tuple lexicographic order). -/
def TableEntry.ble (a b : TableEntry) : Bool :=
  a.value.blt b.value || (a.value.beq b.value && a.degrees.ble b.degrees)

/-- Python `==` on two lists of rotation-table entries (elementwise). -/
def tableBeq : List TableEntry → List TableEntry → Bool
  | [], [] => true
  | a :: as_, b :: bs => a.beq b && tableBeq as_ bs
  | _, _ => false

/-- Stable insertion of `a` into an already sorted list (helper for the
model of Python `sorted`). -/
def orderedInsertB (le : α → α → Bool) (a : α) : List α → List α
  | [] => [a]
  | b :: t => if le a b then a :: b :: t else b :: orderedInsertB le a t

/-- Python `sorted` (a stable sort by the given `≤` test), modelled as an
insertion sort. -/
def sortedB (le : α → α → Bool) : List α → List α
  | [] => []
  | a :: t => orderedInsertB le a (sortedB le t)

/-- Modelled from the spec: `XPlaneKeyframeCollection` is not under `src/`
(only its callers are).  A collection is modelled by its derived tables,
which is all the classifier reads from it:
`translationTable` is `getTranslationKeyframeTable()`,
`rotationTable` is `getRotationKeyframeTable()` (up to 3 `(axis, list)`
pairs for multi-axis rotation, exactly 1 for axis-angle rotation), and
`aaAxis`/`aaData` are the single `(axis, keyframe-list)` pair returned by
`asAA().getRotationKeyframeTable()` (per the spec, `asAA` normalizes to
one axis with a list of signed-degree keyframes). -/
structure KeyframeCollection where
  translationTable : List TranslationKeyframe
  rotationTable : List (Vec3 × List TableEntry)
  aaAxis : Vec3
  aaData : List TableEntry
deriving DecidableEq, Repr

/-- Drop leading entries while the first two entries have `beq`-equal
`f`-values and more than two entries remain. -/
def trimFrontBy (f : α → PyFloat) : List α → List α
  | a :: b :: c :: rest =>
    if (f a).beq (f b) then trimFrontBy f (b :: c :: rest) else a :: b :: c :: rest
  | l => l

/-- Modelled from the spec: `XPlaneKeyframeCollection.filter_clamping_keyframes`
is not under `src/`.  A clamping keyframe repeats an adjacent value at a
boundary; filtering trims duplicate-valued keyframes from the front and
from the back of the table and never leaves fewer than two entries. -/
def filter_clamping_keyframes (f : α → PyFloat) (data : List α) : List α :=
  (trimFrontBy f (trimFrontBy f data).reverse).reverse

/-- Modelled from the spec: `getTranslationKeyframeTableNoClamps()` is the
translation table with clamping keyframes removed (filtered on the
keyframe value). -/
def getTranslationKeyframeTableNoClamps (kc : KeyframeCollection) : List TranslationKeyframe :=
  filter_clamping_keyframes TranslationKeyframe.value kc.translationTable

/-- A node of the animation hierarchy.  Modelled from the spec where
`XPlaneBone` itself is not under `src/`: `animations` maps dataref
identifiers to keyframe collections in insertion order, `datarefs` lists
the bone's declared dataref identifiers, `rotAnimated`/`transAnimated`
are the derived predicates `isDataRefAnimatedForRotation` /
`isDataRefAnimatedForTranslation`, `worldTranslation` is
`getBlenderWorldMatrix().to_translation()`, and `manipName` is
`xplaneObject.manipulator.manip.get_effective_type_name()` when the bone
carries an object with a manipulator (`none` makes that lookup raise an
`AttributeError`). -/
inductive XPlaneBone where
  | mk (blenderName : String)
       (parent : Option XPlaneBone)
       (animations : List (String × KeyframeCollection))
       (datarefs : List String)
       (rotAnimated : Bool)
       (transAnimated : Bool)
       (worldTranslation : Vec3)
       (manipName : Option String)

def XPlaneBone.blenderName : XPlaneBone → String
  | .mk n _ _ _ _ _ _ _ => n

def XPlaneBone.parent : XPlaneBone → Option XPlaneBone
  | .mk _ p _ _ _ _ _ _ => p

def XPlaneBone.animations : XPlaneBone → List (String × KeyframeCollection)
  | .mk _ _ a _ _ _ _ _ => a

def XPlaneBone.datarefs : XPlaneBone → List String
  | .mk _ _ _ d _ _ _ _ => d

def XPlaneBone.rotAnimated : XPlaneBone → Bool
  | .mk _ _ _ _ r _ _ _ => r

def XPlaneBone.transAnimated : XPlaneBone → Bool
  | .mk _ _ _ _ _ t _ _ => t

def XPlaneBone.worldTranslation : XPlaneBone → Vec3
  | .mk _ _ _ _ _ _ w _ => w

def XPlaneBone.manipName : XPlaneBone → Option String
  | .mk _ _ _ _ _ _ _ m => m

/-! ## Manipulator configuration and scene state -/

/-- Modelled from the spec: the manipulator type identifiers of
`xplane_constants.py` (not under `src/`) are the strings used by the
dispatch in `XPlaneManipulator.collect`. -/
def MANIP_DRAG_XY : String := "drag_xy"

def MANIP_DRAG_AXIS : String := "drag_axis"

def MANIP_DRAG_AXIS_PIX : String := "drag_axis_pix"

def MANIP_DRAG_AXIS_DETENT : String := "drag_axis_detent"

def MANIP_DRAG_ROTATE : String := "drag_rotate"

def MANIP_COMMAND : String := "command"

def MANIP_COMMAND_AXIS : String := "command_axis"

def MANIP_COMMAND_KNOB : String := "command_knob"

def MANIP_COMMAND_KNOB2 : String := "command_knob2"

def MANIP_COMMAND_SWITCH_UP_DOWN : String := "command_switch_up_down"

def MANIP_COMMAND_SWITCH_UP_DOWN2 : String := "command_switch_up_down2"

def MANIP_COMMAND_SWITCH_LEFT_RIGHT : String := "command_switch_left_right"

def MANIP_COMMAND_SWITCH_LEFT_RIGHT2 : String := "command_switch_left_right2"

def MANIP_PUSH : String := "push"

def MANIP_RADIO : String := "radio"

def MANIP_TOGGLE : String := "toggle"

def MANIP_DELTA : String := "delta"

def MANIP_WRAP : String := "wrap"

def MANIP_AXIS_SWITCH_UP_DOWN : String := "axis_switch_up_down"

def MANIP_AXIS_SWITCH_LEFT_RIGHT : String := "axis_switch_left_right"

def MANIP_NOOP : String := "noop"

/-- Modelled from the spec: `VERSION_1050` of `xplane_constants.py`
(target-format versions are four-digit numeric strings; they are modelled
as integers, on which the `int` and string comparisons of the source
agree). -/
def VERSION_1050 : ℤ := 1050

/-- Modelled from the spec: `VERSION_1110` of `xplane_constants.py`. -/
def VERSION_1110 : ℤ := 1110

/-- Modelled from the spec: the mouse-wheel-capable manipulator type set
(`MOUSE_WHEEL_MANIPULATORS` of `xplane_constants.py`, not under `src/`);
its exact membership is not specified beyond being a fixed set of type
identifiers. -/
def MOUSE_WHEEL_MANIPULATORS : List String :=
  [MANIP_DRAG_XY, MANIP_DRAG_AXIS, MANIP_DRAG_AXIS_PIX, MANIP_DRAG_AXIS_DETENT,
   MANIP_DRAG_ROTATE, MANIP_PUSH, MANIP_RADIO, MANIP_TOGGLE, MANIP_DELTA, MANIP_WRAP,
   MANIP_AXIS_SWITCH_UP_DOWN, MANIP_AXIS_SWITCH_LEFT_RIGHT]

/-- One `(start, end, height)` axis detent range (`start`/`end`/`height`
are floats; `end` is spelled `end_` because `end` is reserved in Lean). -/
structure AxisDetentRange where
  start : PyFloat
  end_ : PyFloat
  height : PyFloat
deriving DecidableEq, Repr

/-- The user-declared manipulator settings (`blenderObject.xplane.manip`),
one field per scalar setting read by `XPlaneManipulator.collect`, plus
the effective type id stored as `manipType` (`self.type` in the source). -/
structure ManipConfig where
  enabled : Bool
  manipType : String
  cursor : String
  dx : PyFloat
  dy : PyFloat
  dz : PyFloat
  v1 : PyFloat
  v2 : PyFloat
  v1_min : PyFloat
  v1_max : PyFloat
  v2_min : PyFloat
  v2_max : PyFloat
  v_down : PyFloat
  v_up : PyFloat
  v_hold : PyFloat
  v_on : PyFloat
  v_off : PyFloat
  click_step : PyFloat
  hold_step : PyFloat
  step : PyFloat
  exp : PyFloat
  dataref1 : String
  dataref2 : String
  command : String
  positive_command : String
  negative_command : String
  tooltip : String
  wheel_delta : PyFloat
  autodetect_datarefs : Bool
  axis_detent_ranges : List AxisDetentRange
deriving DecidableEq, Repr

/-- The state handed to `XPlaneManipulator.collect`: the primitive's
manipulator settings, the Blender object name, the attached bone
(`xplanePrimative.xplaneBone`), and the scene's target-format version
(`bpy.context.scene.xplane.version`). -/
structure ManipState where
  manip : ManipConfig
  blenderObjectName : String
  bone : XPlaneBone
  sceneVersion : ℤ

/-! ## Logging, errors, attributes -/

/-- One message handed to the logging collaborator: a severity
(`"error"` or `"warning"`) and the message text. -/
structure LogMsg where
  mtype : String
  msg : String
deriving DecidableEq, Repr

def errMsg (s : String) : LogMsg := ⟨"error", s⟩

def warnMsg (s : String) : LogMsg := ⟨"warning", s⟩

/-- A Python exception escaping `collect` (modelled, not caught). -/
inductive PyError where
  | attributeError
  | indexError
  | assertionError
  | stopIteration
  | nameError
  | exception (msg : String)
deriving DecidableEq, Repr

/-- One scalar inside an attribute value tuple. -/
inductive AttrVal where
  | f (q : PyFloat)
  | s (str : String)
deriving DecidableEq, Repr

/-- `xplane_attribute.XPlaneAttribute`: a directive name plus its value
tuple (modelled as the list of scalars) and a weight. -/
structure XPlaneAttribute where
  name : String
  value : List AttrVal
  weight : ℤ := 0
deriving DecidableEq, Repr

/-- The observable outcome of one `XPlaneManipulator.collect` call:
the attributes added to the primitive's cockpit attribute set in order,
the messages handed to the logger in order, the escaped exception if any,
and the final state of `self.manip` (`collect` can write `dataref1` /
`dataref2` on it). -/
structure CollectResult where
  attrs : List XPlaneAttribute
  msgs : List LogMsg
  err : Option PyError
  manip_out : ManipConfig
deriving DecidableEq, Repr

/-- Number of error-severity messages in a result. -/
def CollectResult.errorCount (r : CollectResult) : ℕ :=
  (r.msgs.filter (fun m => m.mtype == "error")).length

/-! ## Validation helpers (top-level functions of `xplane_manipulator.py`) -/

/-- Outcome of one validation helper: it passed (logging nothing), or it
failed after handing the given messages to the logger. -/
inductive CheckRes where
  | passed
  | failed (msgs : List LogMsg)
deriving DecidableEq, Repr

/-- `get_manip_from_bone(bone).get_effective_type_name()`: raises an
`AttributeError` when the bone carries no manipulator-bearing object. -/
def get_manip_from_bone (bone : XPlaneBone) : Except PyError String :=
  match bone.manipName with
  | none => .error .attributeError
  | some m => .ok m

/-- `autodetect_must_have_parent` (lines 35–42).  On the failure path the
source calls `bone.getblendername()` — a misspelling of `getBlenderName`
— inside the arguments of `logger.error`, so the failure path raises an
`AttributeError` before anything is logged. -/
def autodetect_must_have_parent (bone : XPlaneBone) : Except PyError CheckRes :=
  match bone.parent with
  | none => .error .attributeError
  | some _ => .ok .passed

/-- `autodetect_must_be_driven_by_exactly_n_datarefs` (lines 45–67):
checks `len(bone.animations)`; on failure logs one error (with the
manipulator name when `get_manip_from_bone` succeeds, the fallback text
otherwise) and returns `False`. -/
def autodetect_must_be_driven_by_exactly_n_datarefs
    (bone : XPlaneBone) (num_datarefs : ℕ) : CheckRes :=
  if bone.animations.length ≠ num_datarefs then
    match get_manip_from_bone bone with
    | .ok m =>
      .failed [errMsg ("The location animation for the " ++ m ++
        " manipulator attached to " ++ bone.blenderName ++
        " cannot be driven by more than " ++ toString num_datarefs ++ " datarefs")]
    | .error _ =>
      .failed [errMsg ("The location animation for " ++ bone.blenderName ++
        " cannot be driven by more than " ++ toString num_datarefs ++ " datarefs")]
  else .passed

/-- `autodetect_keyframe_count_translation` (lines 70–94): counts the
(possibly clamp-filtered) translation keyframes of the bone's first
animation; on failure logs one error and returns `False`.  The
`next(iter(...))` raises `StopIteration` when the bone has no
animations. -/
def autodetect_keyframe_count_translation
    (translation_bone : XPlaneBone) (count : ℕ) (exclude_clamping : Bool) :
    Except PyError CheckRes :=
  match translation_bone.animations with
  | [] => .error .stopIteration
  | (_, keyframe_col) :: _ =>
    let res :=
      if exclude_clamping then
        (getTranslationKeyframeTableNoClamps keyframe_col).length = count
      else keyframe_col.translationTable.length = count
    if res then .ok .passed
    else
      .ok (.failed [errMsg (translation_bone.blenderName ++ " must have exactly " ++
        toString count ++ " " ++
        (if exclude_clamping then "non-clamping keyframes " else "") ++
        "keyframes for its location animation")])

/-- `autodetect_bone_rotated_around_n_axis` (lines 97–118): with 3 authored
rotation axes, an axis counts as active when the sum of its keyframe
degrees rounds to nonzero at 8 decimals; otherwise the table length is
the axis count.  The failure message evaluates `get_manip_from_bone`
outside any `try`, so it raises when the bone has no manipulator. -/
def autodetect_bone_rotated_around_n_axis
    (bone : XPlaneBone) (num_axis_of_rotation : ℕ) : Except PyError CheckRes :=
  match bone.animations with
  | [] => .error .stopIteration
  | (_, kc) :: _ =>
    let rotation_keyframe_table := kc.rotationTable
    let real_num_axis_of_rotation :=
      if rotation_keyframe_table.length = 3 then
        ((rotation_keyframe_table.map
            (fun at_ => (at_.2.map TableEntry.degrees).foldl (· + ·) 0)).filter
          (fun total => !(pyround total 8).beq 0)).length
      else rotation_keyframe_table.length
    if real_num_axis_of_rotation ≠ num_axis_of_rotation then
      match get_manip_from_bone bone with
      | .error e => .error e
      | .ok m =>
        .ok (.failed [errMsg (m ++ " manipulator attached to " ++ bone.blenderName ++
          " can only rotate around " ++ toString num_axis_of_rotation ++ " axis")])
    else .ok .passed

/-- `autodetect_parent_must_be_animated_for_rotation` (lines 121–131):
asserts the bone has a parent (an `AssertionError` escapes otherwise),
then checks the parent's rotation animation, logging an error only when
`ignore_error` is false. -/
def autodetect_parent_must_be_animated_for_rotation
    (bone : XPlaneBone) (ignore_error : Bool) : Except PyError CheckRes :=
  match bone.parent with
  | none => .error .assertionError
  | some p =>
    if !p.rotAnimated then
      .ok (.failed (if ignore_error then [] else
        [errMsg (bone.blenderName ++ " parent " ++ p.blenderName ++
          " must be animated with rotation")]))
    else .ok .passed

/-- `autodetect_rotation_translation_animations_orthogonal` (lines 140–160):
dot product of the child's clamp-filtered translation direction with the
rotation bone's axis-angle rotation axis must be strictly inside
`(-0.01, 0.01)`. -/
def autodetect_rotation_translation_animations_orthogonal
    (rotation_bone child_bone : XPlaneBone) : Except PyError CheckRes :=
  match rotation_bone.animations with
  | [] => .error .stopIteration
  | (_, rkc) :: _ =>
    let rotation_axis := rkc.aaAxis
    match child_bone.animations with
    | [] => .error .stopIteration
    | (_, ckc) :: _ =>
      match getTranslationKeyframeTableNoClamps ckc with
      | c0 :: c1 :: _ =>
        let child_axis := c1.location.sub c0.location
        let dot_product := child_axis.dot rotation_axis
        if !(PyFloat.blt ⟨-1, 100⟩ dot_product && dot_product.blt ⟨1, 100⟩) then
          match get_manip_from_bone child_bone with
          | .error e => .error e
          | .ok m =>
            .ok (.failed [errMsg ("Location animation for the " ++ m ++
              " manipulator attached to " ++ child_bone.blenderName ++
              " must not be along the rotation animation axis")])
        else .ok .passed
      | _ => .error .indexError

/-- `drag_axis_w_detents_animations_orthogonal` (lines 162–183): dot
product of the two full translation tables' last-minus-first directions
must be strictly inside `(-0.01, 0.01)`. -/
def drag_axis_w_detents_animations_orthogonal
    (drag_axis_bone detent_bone : XPlaneBone) : Except PyError CheckRes :=
  match drag_axis_bone.animations with
  | [] => .error .stopIteration
  | (_, dkc) :: _ =>
    match detent_bone.animations with
    | [] => .error .stopIteration
    | (_, tkc) :: _ =>
      match dkc.translationTable.head?, dkc.translationTable.getLast?,
            tkc.translationTable.head?, tkc.translationTable.getLast? with
      | some d0, some dl, some t0, some tl =>
        let drag_axis := dl.location.sub d0.location
        let detent_axis := tl.location.sub t0.location
        let dot_product := drag_axis.dot detent_axis
        if !(PyFloat.blt ⟨-1, 100⟩ dot_product && dot_product.blt ⟨1, 100⟩) then
          match get_manip_from_bone detent_bone with
          | .error e => .error e
          | .ok m =>
            .ok (.failed [errMsg ("Location animation for the " ++ m ++
              " manipulator attached to " ++ detent_bone.blenderName ++
              " must not be along the main drag animation axis")])
        else .ok .passed
      | _, _, _, _ => .error .indexError

/-- `get_lift_at_max` (lines 185–188): magnitude of the clamp-filtered
translation displacement of the bone's first animation. -/
def get_lift_at_max (translation_bone : XPlaneBone) : Except PyError PyFloat :=
  match translation_bone.animations with
  | [] => .error .stopIteration
  | (_, kc) :: _ =>
    match getTranslationKeyframeTableNoClamps kc with
    | c0 :: c1 :: _ => .ok ((c1.location.sub c0.location).magnitude)
    | _ => .error .indexError

/-- `get_rotation_bone` (lines 191–200), for `MANIP_DRAG_ROTATE`: the
attached bone when rotation-animated, else its parent when that is
rotation-animated (`bone.parent.isDataRefAnimatedForRotation()` raises an
`AttributeError` when the parent is `None`), else `None`. -/
def get_rotation_bone (bone : XPlaneBone) : Except PyError (Option XPlaneBone) :=
  if bone.rotAnimated then .ok (some bone)
  else
    match bone.parent with
    | none => .error .attributeError
    | some p => if p.rotAnimated then .ok (some p) else .ok none

/-- `get_translation_bone` (lines 203–212): for `MANIP_DRAG_AXIS_DETENT`
the attached bone itself; for `MANIP_DRAG_ROTATE` the attached bone when
its parent is rotation-animated (checked with `ignore_error`, asserting
the parent exists) and the bone itself is not; `None` otherwise. -/
def get_translation_bone (manipType : String) (bone : XPlaneBone) :
    Except PyError (Option XPlaneBone) :=
  if manipType == MANIP_DRAG_AXIS_DETENT then .ok (some bone)
  else if manipType == MANIP_DRAG_ROTATE then
    match autodetect_parent_must_be_animated_for_rotation bone true with
    | .error e => .error e
    | .ok .passed =>
      if !bone.rotAnimated then .ok (some bone) else .ok none
    | .ok (.failed _) => .ok none
  else .ok none

instance {ε α : Type} [DecidableEq ε] [DecidableEq α] : DecidableEq (Except ε α) := fun x y =>
  match x, y with
  | .ok a, .ok b =>
    if h : a = b then isTrue (by rw [h])
    else isFalse (by intro hh; cases hh; exact h rfl)
  | .error a, .error b =>
    if h : a = b then isTrue (by rw [h])
    else isFalse (by intro hh; cases hh; exact h rfl)
  | .ok _, .error _ => isFalse (by intro hh; cases hh)
  | .error _, .ok _ => isFalse (by intro hh; cases hh)

/-! ## Detent range validation (`validate_axis_detent_ranges`, lines 594–687) -/

/-- Python `len({r.height for r in ranges}) == 1`: the heights form a
one-element set, i.e. the list is nonempty and all heights are
numerically equal. -/
def allSameHeight (ranges : List AxisDetentRange) : Bool :=
  match ranges with
  | [] => false
  | r :: rest => rest.all (fun q => q.height.beq r.height)

/-- `b < h` where `h` is a neighbor height that may be the synthetic
`float('inf')` (`none`). -/
def ltOpt (b : PyFloat) (h : Option PyFloat) : Bool :=
  match h with
  | none => true
  | some q => b.blt q

/-- The `for i in range(len(axis_detent_ranges))` loop of
`validate_axis_detent_ranges` (lines 633–687), written as structural
recursion over the remaining suffix of the list, with `i` the current
index and `detent_range` the head of the suffix (`ranges[i]`).
`detent_range_next` is `ranges[i+1]` (the suffix's second element), or
the synthetic `(end, v1_max, inf)` when the `i+1` index raises.
`detent_range_prev` is Python `ranges[i-1]`: for `i = 0` negative
indexing yields `ranges[-1]`, the LAST range, without raising, so the
source's `except` branch building a synthetic infinite-height previous
neighbor is never taken.  The chained comparison
`prev.height > h < next.height` is transcribed as
`h < prev.height && h < next.height`. -/
def validateRangesLoop (ranges : List AxisDetentRange) (tb : XPlaneBone)
    (v1_max lift_at_max : PyFloat) :
    ℕ → List AxisDetentRange → List LogMsg → Except PyError (Bool × List LogMsg)
  | _, [], acc => .ok (true, acc)
  | i, detent_range :: remaining, acc =>
    if !(detent_range.start.ble detent_range.end_) then
      .ok (false, acc ++ [errMsg ("The start of axis detent range on " ++ tb.blenderName ++
        " must be less than or equal to its end")])
    else if !(PyFloat.ble 0 detent_range.height && detent_range.height.ble lift_at_max) then
      .ok (false, acc ++ [errMsg ("Height in axis detent range on " ++ tb.blenderName ++
        " must be between 0.0 and the maximum lift height")])
    else if ranges.length = 1 && detent_range.start.beq detent_range.end_ then
      .ok (false, acc ++ [errMsg ("Axis detent range on " ++ tb.blenderName ++
        " cannot have stop pit with only one detent")])
    else
      let nextStart : PyFloat :=
        match remaining.head? with
        | some r => r.start
        | none => detent_range.end_
      let nextHeight : Option PyFloat :=
        match remaining.head? with
        | some r => some r.height
        | none => none
      if !(detent_range.end_.beq nextStart) then
        .ok (false, acc ++ [errMsg ("In " ++ tb.blenderName ++
          " axis detent range list, the start of a detent range must be the end of the previous detent range")])
      else
        let prevHeight : Option PyFloat :=
          if i = 0 then (ranges.getLast?.map AxisDetentRange.height)
          else ((ranges.get? (i - 1)).map AxisDetentRange.height)
        if detent_range.start.beq detent_range.end_ &&
            !(ltOpt detent_range.height prevHeight && ltOpt detent_range.height nextHeight) then
          .ok (false, acc ++ [errMsg ("Stop pit created by " ++ tb.blenderName ++
            " detent range must be lower than previous and next detent ranges")])
        else validateRangesLoop ranges tb v1_max lift_at_max (i + 1) remaining acc

/-- `validate_axis_detent_ranges` (lines 594–687).  Lines 611–615: the
inner `Must have axis detent range` error requires an empty list with
translation animation while the surrounding guard then requires the
opposite, so that branch is unreachable; on an empty list the
`axis_detent_ranges[0]` access then raises `IndexError`.  Returns the
Boolean result of the source together with the logged messages. -/
def validate_axis_detent_ranges (axis_detent_ranges : List AxisDetentRange)
    (translation_bone : XPlaneBone) (v1_min v1_max lift_at_max : PyFloat) :
    Except PyError (Bool × List LogMsg) :=
  if (!translation_bone.transAnimated || axis_detent_ranges.length > 0)
      && (!(axis_detent_ranges.length > 0) && translation_bone.transAnimated) then
    .ok (false, [errMsg ("Must have axis detent range if " ++
      translation_bone.blenderName ++ " has location animation")])
  else
    match axis_detent_ranges.head?, axis_detent_ranges.getLast? with
    | some r0, some rlast =>
      if !(r0.start.beq v1_min) then
        .ok (false, [errMsg ("Axis detent range list for " ++ translation_bone.blenderName ++
          " must start at Dataref 1 minimum value")])
      else if !(rlast.end_.beq v1_max) then
        .ok (false, [errMsg ("Axis detent range list for " ++ translation_bone.blenderName ++
          " must end at Dataref 1 maximum value")])
      else
        let warns :=
          if allSameHeight axis_detent_ranges then
            [warnMsg ("All axis detent ranges for " ++ translation_bone.blenderName ++
              " have the same height. Check your entered data")]
          else []
        validateRangesLoop axis_detent_ranges translation_bone v1_max lift_at_max 0
          axis_detent_ranges warns
    | _, _ => .error .indexError

/-! ## The classifier (`XPlaneManipulator.collect`) -/

/-- The local variables of `collect` that the emission phase
(lines 568–706) reads after a geometric branch computed them. -/
structure EmissionCtx where
  translation_bone : Option XPlaneBone
  v1_min : PyFloat
  v1_max : PyFloat
  lift_at_max : PyFloat
  rotation_cleaned : List TableEntry

/-- Context for the non-geometric manipulator types, which never reach
the detent/keyframe emission steps. -/
def emptyCtx : EmissionCtx := ⟨none, 0, 0, 0, []⟩

/-- Outcome of the type dispatch of `collect` (lines 227–563): an early
`return` after logging `msgs`, an escaped exception, or the computed
primary directive name/value with the emission context.  `cfg` is the
state of `self.manip` at that point (the `drag_rotate` branch can write
its datarefs). -/
inductive BranchOut where
  | early (msgs : List LogMsg) (cfg : ManipConfig)
  | raise (msgs : List LogMsg) (e : PyError) (cfg : ManipConfig)
  | emit (attrName : String) (value : List AttrVal) (ctx : EmissionCtx) (cfg : ManipConfig)

/-- The `MANIP_DRAG_AXIS_DETENT` branch of `collect` (lines 265–334). -/
def dragAxisDetentBranch (st : ManipState) : BranchOut :=
  let manip := st.manip
  match autodetect_must_have_parent st.bone with
  | .error e => .raise [] e manip
  | .ok (.failed m) => .early m manip
  | .ok .passed =>
    match st.bone.parent with
    | none => .raise [] .attributeError manip
    | some parent_bone =>
      if !parent_bone.transAnimated then
        .early [errMsg ("Parent of " ++ st.bone.blenderName ++
          " must be animated for translation")] manip
      else
        match get_translation_bone MANIP_DRAG_AXIS_DETENT st.bone with
        | .error e => .raise [] e manip
        | .ok none => .raise [] .attributeError manip
        | .ok (some translation_bone) =>
          match autodetect_must_be_driven_by_exactly_n_datarefs parent_bone 1 with
          | .failed m => .early m manip
          | .passed =>
          match autodetect_must_be_driven_by_exactly_n_datarefs translation_bone 1 with
          | .failed m => .early m manip
          | .passed =>
          match parent_bone.animations with
          | [] => .raise [] .stopIteration manip
          | (drag_axis_dataref, pkc) :: _ =>
            let drag_axis_frames_cleaned := getTranslationKeyframeTableNoClamps pkc
            match drag_axis_frames_cleaned.get? 0, drag_axis_frames_cleaned.get? 1 with
            | some fc0, some fc1 =>
              let drag_axis_xp := vec_b_to_x (fc1.location.sub fc0.location)
              match autodetect_keyframe_count_translation parent_bone 2 true with
              | .error e => .raise [] e manip
              | .ok (.failed m) => .early m manip
              | .ok .passed =>
              match autodetect_must_be_driven_by_exactly_n_datarefs translation_bone 1 with
              | .failed m => .early m manip
              | .passed =>
              match autodetect_keyframe_count_translation translation_bone 2 true with
              | .error e => .raise [] e manip
              | .ok (.failed m) => .early m manip
              | .ok .passed =>
              match get_lift_at_max translation_bone with
              | .error e => .raise [] e manip
              | .ok lift_at_max =>
              match drag_axis_w_detents_animations_orthogonal parent_bone translation_bone with
              | .error e => .raise [] e manip
              | .ok (.failed m) => .early m manip
              | .ok .passed =>
                let v1_min := fc0.value
                let v1_max := fc1.value
                .emit ("ATTR_manip_" ++ MANIP_DRAG_AXIS)
                  [.s manip.cursor, .f drag_axis_xp.x, .f drag_axis_xp.y, .f drag_axis_xp.z,
                   .f fc0.value, .f fc1.value, .s drag_axis_dataref, .s manip.tooltip]
                  ⟨some translation_bone, v1_min, v1_max, lift_at_max, []⟩ manip
            | _, _ => .raise [] .indexError manip

/-- The dataref auto-fill of the `MANIP_DRAG_ROTATE` branch
(lines 436–441): when `autodetect_datarefs` is set, `dataref1` is
overwritten with the rotation bone's first dataref
(`next(iter(...))` raising `StopIteration` when there is none) and
`dataref2` with the translation bone's single dataref, or `"none"`. -/
def autofillDatarefs (manip : ManipConfig) (rotation_bone : XPlaneBone)
    (translation_bone_opt : Option XPlaneBone) : Except PyError ManipConfig :=
  if manip.autodetect_datarefs then
    match rotation_bone.datarefs with
    | [] => .error .stopIteration
    | d1 :: _ =>
      .ok { manip with
        dataref1 := d1,
        dataref2 :=
          match translation_bone_opt with
          | some tb =>
            match tb.datarefs with
            | [d2v] => d2v
            | _ => "none"
          | none => "none" }
  else .ok manip

/-- Lines 443–486 of the `MANIP_DRAG_ROTATE` branch (after the auto-fill
wrote `cfg`): the angle extrema over the clamp-filtered table, the
`0 degree rotation` and `v1_min == v1_max` rejections, and the primary
directive tuple.
`v1_min` is the value of the LAST table entry whose degrees equal
`angle1` (the forward loop overwrites on every match) and `v1_max` the
value of the FIRST entry whose degrees equal `angle2` (the reversed loop
overwrites); if no entry matched, the unbound local would raise a
`NameError`. -/
def dragRotateEmit (st : ManipState) (rotation_bone : XPlaneBone)
    (translation_bone_opt : Option XPlaneBone) (lift_at_max : PyFloat)
    (rotation_origin rotation_axis : Vec3)
    (rotation_keyframe_data rotation_keyframe_data_cleaned : List TableEntry)
    (v2_min v2_max : PyFloat) (cfg : ManipConfig) : BranchOut :=
    let rotation_origin_xp := vec_b_to_x rotation_origin
    let rotation_axis_xp := vec_b_to_x rotation_axis
    match rotation_keyframe_data_cleaned.head?, rotation_keyframe_data_cleaned.getLast? with
    | some e0, some eN =>
      let angle1 := e0.degrees
      let angle2 := eN.degrees
      if (pyround angle1 5).beq (pyround angle2 5) then
        .early [errMsg ("0 degree rotation on " ++ rotation_bone.blenderName ++
          " not allowed")] cfg
      else
        match (rotation_keyframe_data.filter (fun en => en.degrees.beq angle1)).getLast?,
              (rotation_keyframe_data.filter (fun en => en.degrees.beq angle2)).head? with
        | some vmin_entry, some vmax_entry =>
          let v1_min := vmin_entry.value
          let v1_max := vmax_entry.value
          if v1_min.beq v1_max then
            .early [errMsg (rotation_bone.blenderName ++
              " Dataref 1 minimum cannot equal Dataref 1 maximum")] cfg
          else
            .emit ("ATTR_manip_" ++ st.manip.manipType)
              [.s cfg.cursor,
               .f rotation_origin_xp.x, .f rotation_origin_xp.y, .f rotation_origin_xp.z,
               .f rotation_axis_xp.x, .f rotation_axis_xp.y, .f rotation_axis_xp.z,
               .f angle1, .f angle2, .f lift_at_max, .f v1_min, .f v1_max,
               .f v2_min, .f v2_max,
               .s cfg.dataref1, .s cfg.dataref2, .s cfg.tooltip]
              ⟨translation_bone_opt, v1_min, v1_max, lift_at_max,
                rotation_keyframe_data_cleaned⟩ cfg
        | _, _ => .raise [] .nameError cfg
    | _, _ => .raise [] .indexError cfg

/-- Lines 436–486: the dataref auto-fill (which can raise), then the
emission computation on the resulting `self.manip`. -/
def dragRotateFinish (st : ManipState) (rotation_bone : XPlaneBone)
    (translation_bone_opt : Option XPlaneBone) (lift_at_max : PyFloat)
    (rotation_origin rotation_axis : Vec3)
    (rotation_keyframe_data rotation_keyframe_data_cleaned : List TableEntry)
    (v2_min v2_max : PyFloat) : BranchOut :=
  match autofillDatarefs st.manip rotation_bone translation_bone_opt with
  | .error e => .raise [] e st.manip
  | .ok cfg =>
    dragRotateEmit st rotation_bone translation_bone_opt lift_at_max rotation_origin
      rotation_axis rotation_keyframe_data rotation_keyframe_data_cleaned v2_min v2_max cfg

/-- Lines 401–434 of the `MANIP_DRAG_ROTATE` branch: dataref count and
single-axis checks on the rotation bone, the keyframe-order check
(lines 415–420: note `sorted(rotation_keyframe_data[::-1])` sorts
ascending exactly like `sorted(rotation_keyframe_data)` — see theorem
`C5_code_rejects_descending_table`), clamp filtering, and the
`v2_min`/`v2_max` / orthogonality handling. -/
def dragRotateMain (st : ManipState) (rotation_bone_opt translation_bone_opt : Option XPlaneBone)
    (lift_at_max : PyFloat) : BranchOut :=
  let manip := st.manip
  match rotation_bone_opt with
  | none => .raise [] .attributeError manip
  | some rotation_bone =>
    let rotation_origin := rotation_bone.worldTranslation
    match autodetect_must_be_driven_by_exactly_n_datarefs rotation_bone 1 with
    | .failed m => .early m manip
    | .passed =>
    match autodetect_bone_rotated_around_n_axis rotation_bone 1 with
    | .error e => .raise [] e manip
    | .ok (.failed m) => .early m manip
    | .ok .passed =>
    match rotation_bone.animations with
    | [] => .raise [] .stopIteration manip
    | (_, rkc) :: _ =>
      let rotation_axis := rkc.aaAxis
      let rotation_keyframe_data := rkc.aaData
      if !(tableBeq rotation_keyframe_data (sortedB TableEntry.ble rotation_keyframe_data)
           || tableBeq rotation_keyframe_data
                (sortedB TableEntry.ble rotation_keyframe_data.reverse)) then
        match get_manip_from_bone rotation_bone with
        | .error e => .raise [] e manip
        | .ok m =>
          .early [errMsg ("Rotation dataref values for the " ++ m ++
            " manipulator attached to " ++ rotation_bone.blenderName ++
            " are not in ascending or descending order")] manip
      else
        let rotation_keyframe_data_cleaned :=
          filter_clamping_keyframes TableEntry.degrees rotation_keyframe_data
        match translation_bone_opt with
        | none =>
          dragRotateFinish st rotation_bone none lift_at_max rotation_origin rotation_axis
            rotation_keyframe_data rotation_keyframe_data_cleaned 0 0
        | some translation_bone =>
          if rotation_bone.animations.length > 0 && translation_bone.animations.length > 0 then
            match autodetect_rotation_translation_animations_orthogonal
                rotation_bone translation_bone with
            | .error e => .raise [] e manip
            | .ok (.failed m) => .early m manip
            | .ok .passed =>
              dragRotateFinish st rotation_bone (some translation_bone) lift_at_max
                rotation_origin rotation_axis rotation_keyframe_data
                rotation_keyframe_data_cleaned 0 lift_at_max
          else
            dragRotateFinish st rotation_bone (some translation_bone) lift_at_max
              rotation_origin rotation_axis rotation_keyframe_data
              rotation_keyframe_data_cleaned 0 lift_at_max

/-- The `MANIP_DRAG_ROTATE` branch of `collect` (lines 335–486).
Lines 363–399: bone discovery and the translation-bone preamble
(detent dataref count, keyframe count, nonzero lift). -/
def dragRotateBranch (st : ManipState) : BranchOut :=
  let manip := st.manip
  match get_rotation_bone st.bone with
  | .error e => .raise [] e manip
  | .ok rotation_bone_opt =>
    match get_translation_bone MANIP_DRAG_ROTATE st.bone with
    | .error e => .raise [] e manip
    | .ok translation_bone_opt =>
      match translation_bone_opt with
      | some translation_bone =>
        if (match rotation_bone_opt with
            | some rb => rb.rotAnimated
            | none => false)
           && translation_bone.animations.length > 0 then
          match autodetect_must_be_driven_by_exactly_n_datarefs translation_bone 1 with
          | .failed m => .early m manip
          | .passed =>
          match autodetect_keyframe_count_translation translation_bone 2 true with
          | .error e => .raise [] e manip
          | .ok (.failed m) => .early m manip
          | .ok .passed =>
          match get_lift_at_max translation_bone with
          | .error e => .raise [] e manip
          | .ok lift_at_max =>
            if (pyround lift_at_max 5).beq 0 then
              .early [errMsg (translation_bone.blenderName ++
                " detent animation has keyframes but no change between them")] manip
            else
              dragRotateMain st rotation_bone_opt translation_bone_opt lift_at_max
        else
          match autodetect_must_have_parent translation_bone with
          | .error e => .raise [] e manip
          | .ok (.failed m) => .early m manip
          | .ok .passed =>
          match autodetect_parent_must_be_animated_for_rotation translation_bone false with
          | .error e => .raise [] e manip
          | .ok (.failed m) => .early m manip
          | .ok .passed =>
            dragRotateMain st rotation_bone_opt translation_bone_opt 0
      | none =>
        match rotation_bone_opt with
        | some _ => dragRotateMain st rotation_bone_opt translation_bone_opt 0
        | none =>
          .early [errMsg (st.blenderObjectName ++ " is invalid: " ++ manip.manipType ++
            " manipulators have specific parent-child relationships and animation" ++
            " requirements. See online manipulator documentation for examples")] manip

/-- The `ATTR_axis_detent_range` directives (the `for` loop at
lines 693–695). -/
def rangeAttrs (cfg : ManipConfig) : List XPlaneAttribute :=
  cfg.axis_detent_ranges.map
    (fun r => ⟨"ATTR_axis_detent_range", [.f r.start, .f r.end_, .f r.height], 0⟩)

/-- Steps 4 and 5 of the emission phase: the interior
`ATTR_manip_keyframe` directives (lines 698–703, NOT gated on the
target-format version) and the `ATTR_manip_wheel` directive
(lines 705–706, gated on `VERSION_1050`). -/
def emissionTail (st : ManipState) (attrsSoFar : List XPlaneAttribute)
    (msgsSoFar : List LogMsg) (ctx : EmissionCtx) (cfg : ManipConfig) : CollectResult :=
  let kfAttrs : List XPlaneAttribute :=
    if st.manip.manipType == MANIP_DRAG_ROTATE && ctx.rotation_cleaned.length > 2 then
      (ctx.rotation_cleaned.drop 1).dropLast.map
        (fun rk => ⟨"ATTR_manip_keyframe", [.f rk.value, .f rk.degrees], 0⟩)
    else []
  let wheelAttrs : List XPlaneAttribute :=
    if MOUSE_WHEEL_MANIPULATORS.contains st.manip.manipType
        && st.sceneVersion ≥ VERSION_1050 && !cfg.wheel_delta.beq 0 then
      [⟨"ATTR_manip_wheel", [.f cfg.wheel_delta], 0⟩]
    else []
  ⟨attrsSoFar ++ kfAttrs ++ wheelAttrs, msgsSoFar, none, cfg⟩

/-- Step 2 of the emission phase (lines 576–588): the
`ATTR_axis_detented` directive computed for `MANIP_DRAG_AXIS_DETENT`
when the version gate holds, empty otherwise. -/
def emissionDetentAttrs (st : ManipState) (ctx : EmissionCtx) (ver_ge_1100 : Bool) :
    Except PyError (List XPlaneAttribute) :=
  if st.manip.manipType == MANIP_DRAG_AXIS_DETENT && ver_ge_1100 then
    match ctx.translation_bone with
    | none => .error .attributeError
    | some tb =>
      match tb.animations with
      | [] => .error .stopIteration
      | (detent_axis_dataref, kc) :: _ =>
        let cleaned := getTranslationKeyframeTableNoClamps kc
        match cleaned.get? 0, cleaned.get? 1 with
        | some c0, some c1 =>
          let detent_axis_xp := vec_b_to_x (c1.location.sub c0.location)
          .ok [⟨"ATTR_axis_detented",
            [.f detent_axis_xp.x, .f detent_axis_xp.y, .f detent_axis_xp.z,
             .f c0.value, .f c1.value, .s detent_axis_dataref], 0⟩]
        | _, _ => .error .indexError
  else .ok []

/-- The emission phase of `collect` (lines 568–706).  The primary
directive is added FIRST (line 571); `ATTR_axis_detented` is added for
`MANIP_DRAG_AXIS_DETENT` when the version gate holds (lines 576–588);
detent ranges are validated and added when the version gate holds
(lines 591–695) — a validation failure `return`s at line 691 AFTER the
primary (and axis-detented) directives were already added; then the
keyframe and wheel steps run.  The cockpit attribute sink `add` is
modelled as an append to the emitted list. -/
def emission (st : ManipState) (attr : String) (value : List AttrVal)
    (ctx : EmissionCtx) (cfg : ManipConfig) : CollectResult :=
  let attrs1 : List XPlaneAttribute := [⟨attr, value, 0⟩]
  let ver_ge_1100 : Bool := st.sceneVersion ≥ VERSION_1110
  match emissionDetentAttrs st ctx ver_ge_1100 with
  | .error e => ⟨attrs1, [], some e, cfg⟩
  | .ok detentAttrs =>
    if (st.manip.manipType == MANIP_DRAG_AXIS_DETENT
        || st.manip.manipType == MANIP_DRAG_ROTATE) && ver_ge_1100 then
      if cfg.axis_detent_ranges.length > 0 then
        match ctx.translation_bone with
        | none => ⟨attrs1 ++ detentAttrs, [], some .attributeError, cfg⟩
        | some tb =>
          match validate_axis_detent_ranges cfg.axis_detent_ranges tb
              ctx.v1_min ctx.v1_max ctx.lift_at_max with
          | .error e => ⟨attrs1 ++ detentAttrs, [], some e, cfg⟩
          | .ok (false, vmsgs) => ⟨attrs1 ++ detentAttrs, vmsgs, none, cfg⟩
          | .ok (true, vmsgs) =>
            emissionTail st (attrs1 ++ detentAttrs ++ rangeAttrs cfg) vmsgs ctx cfg
      else emissionTail st (attrs1 ++ detentAttrs ++ rangeAttrs cfg) [] ctx cfg
    else emissionTail st (attrs1 ++ detentAttrs) [] ctx cfg

/-- Value tuples of the non-geometric manipulator variants
(lines 230–263 and 487–559), one definition per branch of the dispatch. -/
def valueDragXY (m : ManipConfig) : List AttrVal :=
  [.s m.cursor, .f m.dx, .f m.dy, .f m.v1_min, .f m.v1_max, .f m.v2_min, .f m.v2_max,
   .s m.dataref1, .s m.dataref2, .s m.tooltip]

def valueDragAxis (m : ManipConfig) : List AttrVal :=
  [.s m.cursor, .f m.dx, .f m.dy, .f m.dz, .f m.v1, .f m.v2, .s m.dataref1, .s m.tooltip]

def valueDragAxisPix (m : ManipConfig) : List AttrVal :=
  [.s m.cursor, .f m.dx, .f m.step, .f m.exp, .f m.v1, .f m.v2, .s m.dataref1, .s m.tooltip]

def valueCommand (m : ManipConfig) : List AttrVal :=
  [.s m.cursor, .s m.command, .s m.tooltip]

def valueCommandAxis (m : ManipConfig) : List AttrVal :=
  [.s m.cursor, .f m.dx, .f m.dy, .f m.dz, .s m.positive_command, .s m.negative_command,
   .s m.tooltip]

def valueCommandKnob (m : ManipConfig) : List AttrVal :=
  [.s m.cursor, .s m.positive_command, .s m.negative_command, .s m.tooltip]

def valueCommandKnob2 (m : ManipConfig) : List AttrVal :=
  [.s m.cursor, .s m.command, .s m.tooltip]

def valuePush (m : ManipConfig) : List AttrVal :=
  [.s m.cursor, .f m.v_down, .f m.v_up, .s m.dataref1, .s m.tooltip]

def valueRadio (m : ManipConfig) : List AttrVal :=
  [.s m.cursor, .f m.v_down, .s m.dataref1, .s m.tooltip]

def valueToggle (m : ManipConfig) : List AttrVal :=
  [.s m.cursor, .f m.v_on, .f m.v_off, .s m.dataref1, .s m.tooltip]

def valueDeltaWrap (m : ManipConfig) : List AttrVal :=
  [.s m.cursor, .f m.v_down, .f m.v_hold, .f m.v1_min, .f m.v1_max, .s m.dataref1,
   .s m.tooltip]

def valueAxisSwitch (m : ManipConfig) : List AttrVal :=
  [.s m.cursor, .f m.v1, .f m.v2, .f m.click_step, .f m.hold_step, .s m.dataref1,
   .s m.tooltip]

def valueNoop (m : ManipConfig) : List AttrVal :=
  [.s m.dataref1, .s m.tooltip]

/-- The type dispatch of `XPlaneManipulator.collect` (lines 227–563):
the `if/elif` chain on the effective type id computing the primary
directive's name and value tuple (or returning early / raising);
`manip` is the local `self.manip` and `t` the effective type id. -/
def dispatchOn (st : ManipState) (manip : ManipConfig) (t : String) : BranchOut :=
  if t == MANIP_DRAG_XY then .emit ("ATTR_manip_" ++ t) (valueDragXY manip) emptyCtx manip
  else if t == MANIP_DRAG_AXIS then
    .emit ("ATTR_manip_" ++ t) (valueDragAxis manip) emptyCtx manip
  else if t == MANIP_DRAG_AXIS_PIX then
    .emit ("ATTR_manip_" ++ t) (valueDragAxisPix manip) emptyCtx manip
  else if t == MANIP_DRAG_AXIS_DETENT then dragAxisDetentBranch st
  else if t == MANIP_DRAG_ROTATE then dragRotateBranch st
  else if t == MANIP_COMMAND then
    .emit ("ATTR_manip_" ++ t) (valueCommand manip) emptyCtx manip
  else if t == MANIP_COMMAND_AXIS then
    .emit ("ATTR_manip_" ++ t) (valueCommandAxis manip) emptyCtx manip
  else if t == MANIP_COMMAND_KNOB || t == MANIP_COMMAND_SWITCH_UP_DOWN
      || t == MANIP_COMMAND_SWITCH_LEFT_RIGHT then
    .emit ("ATTR_manip_" ++ t) (valueCommandKnob manip) emptyCtx manip
  else if t == MANIP_COMMAND_KNOB2 || t == MANIP_COMMAND_SWITCH_UP_DOWN2
      || t == MANIP_COMMAND_SWITCH_LEFT_RIGHT2 then
    .emit ("ATTR_manip_" ++ t) (valueCommandKnob2 manip) emptyCtx manip
  else if t == MANIP_PUSH then
    .emit ("ATTR_manip_" ++ t) (valuePush manip) emptyCtx manip
  else if t == MANIP_RADIO then
    .emit ("ATTR_manip_" ++ t) (valueRadio manip) emptyCtx manip
  else if t == MANIP_TOGGLE then
    .emit ("ATTR_manip_" ++ t) (valueToggle manip) emptyCtx manip
  else if t == MANIP_DELTA || t == MANIP_WRAP then
    .emit ("ATTR_manip_" ++ t) (valueDeltaWrap manip) emptyCtx manip
  else if t == MANIP_AXIS_SWITCH_UP_DOWN || t == MANIP_AXIS_SWITCH_LEFT_RIGHT then
    .emit ("ATTR_manip_" ++ t) (valueAxisSwitch manip) emptyCtx manip
  else if t == MANIP_NOOP then
    .emit ("ATTR_manip_" ++ t) (valueNoop manip) emptyCtx manip
  else
    .raise [errMsg ("Manipulator type " ++ t ++ " is unknown or unimplemented")]
      (.exception ("Manipulator type " ++ t ++ " is unknown or unimplemented")) manip

/-- The type dispatch applied to the state's own config and type id. -/
def dispatch (st : ManipState) : BranchOut :=
  dispatchOn st st.manip st.manip.manipType

/-- `XPlaneManipulator.collect` (lines 223–706) assembled: when enabled,
dispatch on the type, then run the emission phase on the computed
primary directive. -/
def collect (st : ManipState) : CollectResult :=
  if !st.manip.enabled then ⟨[], [], none, st.manip⟩
  else
    match dispatch st with
    | .early msgs cfg => ⟨[], msgs, none, cfg⟩
    | .raise msgs e cfg => ⟨[], msgs, some e, cfg⟩
    | .emit attrName value ctx cfg => emission st attrName value ctx cfg

/-! ## Concrete scenes used by witnesses and counterexamples -/

def vZero : Vec3 := ⟨0, 0, 0⟩

def axisX : Vec3 := ⟨1, 0, 0⟩

/-- Rotation collection: one axis (X), ascending table 0°→90°. -/
def kcRotAsc : KeyframeCollection :=
  ⟨[], [(axisX, [⟨0, 0⟩, ⟨1, 90⟩])], axisX, [⟨0, 0⟩, ⟨1, 90⟩]⟩

/-- Rotation collection with three keyframes 0°→45°→90°. -/
def kcRot3 : KeyframeCollection :=
  ⟨[], [(axisX, [⟨0, 0⟩, ⟨⟨1, 2⟩, 45⟩, ⟨1, 90⟩])], axisX,
   [⟨0, 0⟩, ⟨⟨1, 2⟩, 45⟩, ⟨1, 90⟩]⟩

/-- Rotation collection whose table is strictly descending in value. -/
def kcRotDesc : KeyframeCollection :=
  ⟨[], [(axisX, [⟨1, 0⟩, ⟨0, 90⟩])], axisX, [⟨1, 0⟩, ⟨0, 90⟩]⟩

/-- Rotation collection with a flat 0°→0° rotation. -/
def kcRotFlat : KeyframeCollection :=
  ⟨[], [(axisX, [⟨0, 0⟩, ⟨1, 0⟩])], axisX, [⟨0, 0⟩, ⟨1, 0⟩]⟩

/-- Translation collection moving one unit along Z (values 0→1). -/
def kcTransZ : KeyframeCollection :=
  ⟨[⟨0, vZero⟩, ⟨1, ⟨0, 0, 1⟩⟩], [], axisX, []⟩

/-- Translation collection moving one unit along X (values 0→1). -/
def kcTransX : KeyframeCollection :=
  ⟨[⟨0, vZero⟩, ⟨1, ⟨1, 0, 0⟩⟩], [], axisX, []⟩

/-- A baseline enabled `drag_rotate` configuration. -/
def baseManip : ManipConfig :=
  { enabled := true, manipType := MANIP_DRAG_ROTATE, cursor := "hand",
    dx := 0, dy := 0, dz := 0, v1 := 0, v2 := 0,
    v1_min := 0, v1_max := 0, v2_min := 0, v2_max := 0,
    v_down := 0, v_up := 0, v_hold := 0, v_on := 0, v_off := 0,
    click_step := 0, hold_step := 0, step := 0, exp := 0,
    dataref1 := "d1", dataref2 := "d2", command := "cmd",
    positive_command := "pcmd", negative_command := "ncmd", tooltip := "tip",
    wheel_delta := 0, autodetect_datarefs := false, axis_detent_ranges := [] }

/-- A parent bone animated for rotation (the rotation bone of a
`drag_rotate` with detent). -/
def rotParentBone : XPlaneBone :=
  .mk "Armature" none [("simR", kcRotAsc)] ["simR"] true false vZero none

/-- A parent bone with no animation at all. -/
def plainParentBone : XPlaneBone :=
  .mk "Empty" none [] [] false false vZero none

/-- `drag_rotate` with detent: translation child of a rotating parent. -/
def drBoneDetent : XPlaneBone :=
  .mk "Cube" (some rotParentBone) [("simT", kcTransZ)] ["simT"] false true vZero
    (some "drag_rotate")

/-- `drag_rotate` attached directly to a rotating bone (no detent). -/
def drBoneSimple : XPlaneBone :=
  .mk "Cube" (some plainParentBone) [("simR", kcRotAsc)] ["simR"] true false vZero
    (some "drag_rotate")

/-- Like `drBoneSimple` but with a three-keyframe rotation. -/
def drBone3 : XPlaneBone :=
  .mk "Cube" (some plainParentBone) [("simR", kcRot3)] ["simR"] true false vZero
    (some "drag_rotate")

/-- Like `drBoneSimple` but with a descending rotation table. -/
def drBoneDesc : XPlaneBone :=
  .mk "Cube" (some plainParentBone) [("simR", kcRotDesc)] ["simR"] true false vZero
    (some "drag_rotate")

/-- A parentless rotating bone with a flat rotation. -/
def drBoneOrphan : XPlaneBone :=
  .mk "Cube" none [("simR", kcRotFlat)] ["simR"] true false vZero
    (some "drag_rotate")

/-- Drag-axis parent translated along X. -/
def dadParentBone : XPlaneBone :=
  .mk "Empty" none [("simA", kcTransX)] ["simA"] false true vZero none

/-- Detent bone of a `drag_axis_detent`, translated along Z. -/
def dadBone : XPlaneBone :=
  .mk "Cube" (some dadParentBone) [("simB", kcTransZ)] ["simB"] false true vZero
    (some "drag_axis_detent")

/-- Detent bone translated along X (parallel to the drag axis). -/
def dadBoneParallel : XPlaneBone :=
  .mk "Cube" (some dadParentBone) [("simB", kcTransX)] ["simB"] false true vZero
    (some "drag_axis_detent")

def c1State : ManipState :=
  ⟨{ baseManip with axis_detent_ranges := [⟨99, 100, 0⟩] }, "Cube", drBoneDetent, 1110⟩

def c2State : ManipState :=
  ⟨{ baseManip with autodetect_datarefs := true }, "Cube", drBoneSimple, 1110⟩

def c4State : ManipState :=
  ⟨{ baseManip with manipType := MANIP_DRAG_AXIS_DETENT }, "Cube", dadBone, 1110⟩

def c5State : ManipState :=
  ⟨baseManip, "Cube", drBoneDesc, 1110⟩

def c6State : ManipState :=
  ⟨baseManip, "Cube", drBoneOrphan, 1110⟩

def c8State : ManipState :=
  ⟨baseManip, "Cube", drBone3, 1050⟩

/-- `drag_axis_detent` whose detent translation is parallel to the drag
axis (dot product 1, far outside the orthogonality tolerance). -/
def c7State : ManipState :=
  ⟨{ baseManip with manipType := MANIP_DRAG_AXIS_DETENT }, "Cube", dadBoneParallel, 1110⟩

/-! ## Numeric formatting (`xplane_helpers.floatToStr`, lines 17–29) -/

/-- `FLOAT_PRECISION` of `xplane_helpers.py`. -/
def FLOAT_PRECISION : ℕ := 8

/-- The `k` least significant decimal digits of `m`, most significant
first (with leading zeros). -/
def natDigitsAux : ℕ → ℕ → List ℕ
  | 0, _ => []
  | k + 1, m => natDigitsAux k (m / 10) ++ [m % 10]

/-- Those digits as characters. -/
def digitChars (k m : ℕ) : List Char :=
  (natDigitsAux k m).map Nat.digitChar

/-- C `"%.<prec>f"` formatting of the rational `n`: round to `prec`
fractional digits (half to even, as for an exactly representable value),
then print sign, integer part, `.`, and exactly `prec` fractional
digits. -/
def fmtFixed (prec : ℕ) (n : PyFloat) : String :=
  let scaled : ℤ := PyFloat.rhe ⟨n.num * 10 ^ prec, n.den⟩
  let mAbs : ℕ := scaled.natAbs
  let ip : ℕ := mAbs / 10 ^ prec
  let frac : ℕ := mAbs % 10 ^ prec
  (if scaled < 0 then "-" else "") ++ toString ip ++ "." ++ String.mk (digitChars prec frac)

/-- Python `str.rstrip('0')`: drop every trailing `'0'` character. -/
def rstrip0 (s : String) : String :=
  String.mk ((s.data.reverse.dropWhile (fun c => c == '0')).reverse)

/-- `xplane_helpers.floatToStr`: round to 8 decimal digits; if the result
equals its integer truncation print `'%d' % n_int`, else print
`'%.8f' % n` and strip trailing zeros. -/
def floatToStr (x : PyFloat) : String :=
  let n := pyround x FLOAT_PRECISION
  let n_int : ℤ := n.trunc
  if (PyFloat.beq ⟨n_int, 1⟩ n) then toString n_int
  else rstrip0 (fmtFixed FLOAT_PRECISION n)

/-- Trailing-zero stripping on a character list (`rstrip0` works on the
underlying list). -/
def dropTrailZeros (l : List Char) : List Char :=
  (l.reverse.dropWhile (fun c => c == '0')).reverse

/-- The `self.manip` object carried in a dispatch outcome. -/
def BranchOut.cfg : BranchOut → ManipConfig
  | .early _ c => c
  | .raise _ _ c => c
  | .emit _ _ _ c => c

/-! ## Supporting lemmas -/

theorem PyFloat.sub_def (a b : PyFloat) :
    a - b = ⟨a.num * b.den - b.num * a.den, a.den * b.den⟩ := rfl

theorem PyFloat.add_def (a b : PyFloat) :
    a + b = ⟨a.num * b.den + b.num * a.den, a.den * b.den⟩ := rfl

theorem PyFloat.mul_def (a b : PyFloat) :
    a * b = ⟨a.num * b.num, a.den * b.den⟩ := rfl

/-- `collect` on a disabled manipulator, fully evaluated. -/
theorem collect_disabled (st : ManipState) (h : st.manip.enabled = false) :
    collect st = ⟨[], [], none, st.manip⟩ := by
  simp only [collect, h, Bool.not_false, if_true]

/-- C10: For every manipulator whose config has the enabled flag unset,
`collect` adds no attribute to the primitive's cockpit attribute set,
reports no message, and raises no exception, whatever the manipulator
type or bone topology. -/
theorem C10_disabled_collect_is_inert (st : ManipState)
    (h : st.manip.enabled = false) :
    (collect st).attrs = [] ∧ (collect st).msgs = [] ∧ (collect st).err = none := by
  rw [collect_disabled st h]
  exact ⟨rfl, rfl, rfl⟩

/-- Witness for C10 at a concrete disabled configuration. -/
theorem C10_witness :
    ({ baseManip with enabled := false } : ManipConfig).enabled = false ∧
    (collect ⟨{ baseManip with enabled := false }, "Cube", drBoneSimple, 1110⟩).attrs = [] ∧
    (collect ⟨{ baseManip with enabled := false }, "Cube", drBoneSimple, 1110⟩).msgs = [] ∧
    (collect ⟨{ baseManip with enabled := false }, "Cube", drBoneSimple, 1110⟩).err = none := by
  refine ⟨rfl, ?_⟩
  exact C10_disabled_collect_is_inert
    ⟨{ baseManip with enabled := false }, "Cube", drBoneSimple, 1110⟩ rfl

theorem rstrip0_eq (s : String) : rstrip0 s = String.mk (dropTrailZeros s.data) := rfl

theorem natDigitsAux_mem_lt (k : ℕ) : ∀ (m : ℕ), ∀ d ∈ natDigitsAux k m, d < 10 := by
  induction k with
  | zero => intro m d hd; simp [natDigitsAux] at hd
  | succ k ih =>
    intro m d hd
    simp only [natDigitsAux, List.mem_append, List.mem_singleton] at hd
    rcases hd with h | h
    · exact ih _ d h
    · subst h; exact Nat.mod_lt _ (by norm_num)

theorem natDigitsAux_all_zero {k m : ℕ} (h : ∀ d ∈ natDigitsAux k m, d = 0) :
    m % 10 ^ k = 0 := by
  induction k generalizing m with
  | zero => simp [Nat.mod_one]
  | succ k ih =>
    have h1 : m % 10 = 0 := h _ (by simp [natDigitsAux])
    have h2 : (m / 10) % 10 ^ k = 0 :=
      ih (fun d hd => h d (by simp [natDigitsAux]; exact Or.inl hd))
    rcases Nat.dvd_of_mod_eq_zero h2 with ⟨c, hc⟩
    have hm0 : m = 10 * (m / 10) := by omega
    have hm : m = 10 ^ k * 10 * c := by rw [hm0, hc]; ring
    simp [hm, Nat.mul_mod_right, pow_succ]

theorem digitChar_ne_zero {d : ℕ} (hlt : d < 10) (hne : d ≠ 0) :
    Nat.digitChar d ≠ '0' := by
  interval_cases d
  · exact absurd rfl hne
  all_goals decide

theorem digitChars_exists_ne_zero {k m : ℕ} (hm : m ≠ 0) (hlt : m < 10 ^ k) :
    ∃ c ∈ digitChars k m, c ≠ '0' := by
  by_contra hc
  push_neg at hc
  have hall : ∀ d ∈ natDigitsAux k m, d = 0 := by
    intro d hd
    have hdlt := natDigitsAux_mem_lt k m d hd
    by_contra hdne
    exact (digitChar_ne_zero hdlt hdne)
      (hc _ (List.mem_map_of_mem Nat.digitChar hd))
  have := natDigitsAux_all_zero hall
  rw [Nat.mod_eq_of_lt hlt] at this
  exact hm this

theorem dropTrailZeros_ne_nil {l : List Char} (h : ∃ c ∈ l, c ≠ '0') :
    dropTrailZeros l ≠ [] := by
  unfold dropTrailZeros
  intro hnil
  have h2 : l.reverse.dropWhile (fun c => c == '0') = [] := by
    have := congrArg List.reverse hnil
    simpa using this
  rw [List.dropWhile_eq_nil_iff] at h2
  obtain ⟨c, hc, hne⟩ := h
  have := h2 c (by simpa using hc)
  simp at this
  exact hne this

theorem dropTrailZeros_append (p q : List Char) (h : dropTrailZeros q ≠ []) :
    dropTrailZeros (p ++ q) = p ++ dropTrailZeros q := by
  have hne : q.reverse.dropWhile (fun c => c == '0') ≠ [] := by
    intro hnil
    exact h (by unfold dropTrailZeros; rw [hnil]; rfl)
  unfold dropTrailZeros
  rw [List.reverse_append, List.dropWhile_append, if_neg (by simpa using hne),
    List.reverse_append, List.reverse_reverse]

theorem rhe_exact (a d : ℤ) (hd : 0 < d) : PyFloat.rhe ⟨a * d, d⟩ = a := by
  have h1 : Int.fdiv (a * d) d = a := Int.mul_fdiv_cancel a (ne_of_gt hd)
  simp only [PyFloat.rhe, PyFloat.qfloor, PyFloat.sub_def, PyFloat.blt, h1]
  rw [if_pos]
  simp only [decide_eq_true_eq, mul_one, one_mul, sub_self, zero_mul]
  exact hd

theorem string_data_append (a b : String) : (a ++ b).data = a.data ++ b.data := rfl

/-- The non-integer branch of `floatToStr`: the output is sign, integer
part, a dot, and the 8 fractional digits with trailing zeros stripped —
and the stripped fractional part is never empty. -/
theorem floatToStr_else (x : PyFloat)
    (hne : PyFloat.beq ⟨(pyround x FLOAT_PRECISION).trunc, 1⟩ (pyround x FLOAT_PRECISION)
      = false) :
    floatToStr x =
      (if (pyround x FLOAT_PRECISION).num < 0 then "-" else "") ++
        toString ((pyround x FLOAT_PRECISION).num.natAbs / 10 ^ FLOAT_PRECISION) ++ "." ++
        String.mk (dropTrailZeros (digitChars FLOAT_PRECISION
          ((pyround x FLOAT_PRECISION).num.natAbs % 10 ^ FLOAT_PRECISION))) ∧
    dropTrailZeros (digitChars FLOAT_PRECISION
      ((pyround x FLOAT_PRECISION).num.natAbs % 10 ^ FLOAT_PRECISION)) ≠ [] := by
  have hden : (pyround x FLOAT_PRECISION).den = 10 ^ FLOAT_PRECISION := rfl
  have hpos : (0 : ℤ) < 10 ^ FLOAT_PRECISION := by positivity
  have hscaled : PyFloat.rhe ⟨(pyround x FLOAT_PRECISION).num * 10 ^ FLOAT_PRECISION,
      (pyround x FLOAT_PRECISION).den⟩ = (pyround x FLOAT_PRECISION).num := by
    rw [hden]; exact rhe_exact _ _ hpos
  have hndvd : ¬ ((10 : ℤ) ^ FLOAT_PRECISION ∣ (pyround x FLOAT_PRECISION).num) := by
    intro hdvd
    have ht : (pyround x FLOAT_PRECISION).trunc * 10 ^ FLOAT_PRECISION
        = (pyround x FLOAT_PRECISION).num := by
      unfold PyFloat.trunc
      rw [hden]
      exact Int.tdiv_mul_cancel hdvd
    have htrue : PyFloat.beq ⟨(pyround x FLOAT_PRECISION).trunc, 1⟩
        (pyround x FLOAT_PRECISION) = true := by
      simp only [PyFloat.beq, hden, mul_one, beq_iff_eq]
      exact ht
    rw [htrue] at hne
    simp at hne
  have hfrac_ne : (pyround x FLOAT_PRECISION).num.natAbs % 10 ^ FLOAT_PRECISION ≠ 0 := by
    intro h0
    apply hndvd
    have hd : (10 ^ FLOAT_PRECISION : ℕ) ∣ (pyround x FLOAT_PRECISION).num.natAbs :=
      Nat.dvd_of_mod_eq_zero h0
    apply Int.natAbs_dvd_natAbs.mp
    simpa [Int.natAbs_pow] using hd
  have hfrac_lt : (pyround x FLOAT_PRECISION).num.natAbs % 10 ^ FLOAT_PRECISION
      < 10 ^ FLOAT_PRECISION := Nat.mod_lt _ (by positivity)
  have hnz := dropTrailZeros_ne_nil (digitChars_exists_ne_zero hfrac_ne hfrac_lt)
  refine ⟨?_, hnz⟩
  unfold floatToStr
  rw [if_neg (by rw [hne]; exact Bool.false_ne_true)]
  show rstrip0 (fmtFixed FLOAT_PRECISION (pyround x FLOAT_PRECISION)) = _
  unfold fmtFixed
  rw [hscaled, rstrip0_eq]
  rw [show (((if (pyround x FLOAT_PRECISION).num < 0 then "-" else "") ++
      toString ((pyround x FLOAT_PRECISION).num.natAbs / 10 ^ FLOAT_PRECISION) ++ "." ++
      String.mk (digitChars FLOAT_PRECISION
        ((pyround x FLOAT_PRECISION).num.natAbs % 10 ^ FLOAT_PRECISION))).data)
    = ((if (pyround x FLOAT_PRECISION).num < 0 then "-" else "") ++
      toString ((pyround x FLOAT_PRECISION).num.natAbs / 10 ^ FLOAT_PRECISION) ++ ".").data
      ++ digitChars FLOAT_PRECISION
        ((pyround x FLOAT_PRECISION).num.natAbs % 10 ^ FLOAT_PRECISION) from rfl]
  rw [dropTrailZeros_append _ _ hnz]
  rfl

/-- C9: For every float input, the numeric formatter rounds to 8 decimal
digits, prints a bare integer (`'%d' % int(n)`) when the rounded value
equals its integer truncation, and otherwise prints the sign, the
integer part, and 8 fractional digits with trailing zeros stripped but
never stripped to an empty fractional part; in particular
`1.00000000 -> "1"`, `1.5 -> "1.5"`, and `0.100000001 -> "0.1"`. -/
theorem C9_floatToStr_spec :
    (∀ x : PyFloat,
      PyFloat.beq ⟨(pyround x FLOAT_PRECISION).trunc, 1⟩ (pyround x FLOAT_PRECISION) = true →
      floatToStr x = toString (pyround x FLOAT_PRECISION).trunc) ∧
    (∀ x : PyFloat,
      PyFloat.beq ⟨(pyround x FLOAT_PRECISION).trunc, 1⟩ (pyround x FLOAT_PRECISION) = false →
      floatToStr x =
        (if (pyround x FLOAT_PRECISION).num < 0 then "-" else "") ++
          toString ((pyround x FLOAT_PRECISION).num.natAbs / 10 ^ FLOAT_PRECISION) ++ "." ++
          String.mk (dropTrailZeros (digitChars FLOAT_PRECISION
            ((pyround x FLOAT_PRECISION).num.natAbs % 10 ^ FLOAT_PRECISION))) ∧
      dropTrailZeros (digitChars FLOAT_PRECISION
        ((pyround x FLOAT_PRECISION).num.natAbs % 10 ^ FLOAT_PRECISION)) ≠ []) ∧
    floatToStr 1 = "1" ∧ floatToStr ⟨3, 2⟩ = "1.5" ∧
    floatToStr ⟨100000001, 1000000000⟩ = "0.1" := by
  refine ⟨?_, ?_, by decide, by decide, by decide⟩
  · intro x h
    unfold floatToStr
    rw [if_pos h]
  · intro x h
    exact floatToStr_else x h

/-- Witness for C9: the integer branch applied at `x = 1`. -/
theorem C9_witness :
    PyFloat.beq ⟨(pyround 1 FLOAT_PRECISION).trunc, 1⟩ (pyround 1 FLOAT_PRECISION) = true ∧
    floatToStr 1 = toString (pyround 1 FLOAT_PRECISION).trunc :=
  ⟨by decide, C9_floatToStr_spec.1 1 (by decide)⟩

/-- C3 (code bug): `[(0,0,0.5), (0,5,1.0), (5,10,0.2)]` has a stop pit as
its first range whose height 0.5 is strictly lower than the following
range's height 1.0, so by the claim (and the source's own docstring,
"A pit can be the first or last detent range") it must be accepted.
The code instead compares the first pit against `ranges[-1]` — Python
negative indexing makes `axis_detent_ranges[i-1]` with `i = 0` yield the
LAST range (height 0.2) instead of the synthetic infinite-height
boundary — and rejects the list. -/
theorem C3_first_range_stop_pit_rejected :
    ((⟨0, 0, ⟨1, 2⟩⟩ : AxisDetentRange).start.beq (⟨0, 0, ⟨1, 2⟩⟩ : AxisDetentRange).end_
      = true) ∧
    PyFloat.blt ⟨1, 2⟩ 1 = true ∧
    validate_axis_detent_ranges [⟨0, 0, ⟨1, 2⟩⟩, ⟨0, 5, 1⟩, ⟨5, 10, ⟨1, 5⟩⟩] dadBone 0 10 1 =
      .ok (false, [errMsg ("Stop pit created by Cube detent range must be lower than" ++
        " previous and next detent ranges")]) := by decide

/-- The spec's own positive example: the same list with the pit in the
middle is accepted (supporting evidence that only the first-position pit
handling diverges). -/
theorem C3_middle_stop_pit_accepted :
    validate_axis_detent_ranges [⟨0, 5, 1⟩, ⟨5, 5, ⟨1, 5⟩⟩, ⟨5, 10, 1⟩] dadBone 0 10 1 =
      .ok (true, []) := by decide

/-- C4 (code bug): a `drag_axis_detent` whose detent (travel) bone is
translation-animated but whose axis-detent-range list is EMPTY is
exported without any error: `collect` emits the primary and
axis-detented directives and logs nothing, because the validator — whose
`Must have axis detent range` error message documents the intended
rule — is only invoked when the list is non-empty (line 689), and its
internal empty-list check (lines 611–615) is self-contradictory dead
code. -/
theorem C4_empty_detent_ranges_accepted_silently :
    dadBone.transAnimated = true ∧
    c4State.manip.axis_detent_ranges = [] ∧
    (collect c4State).attrs.map XPlaneAttribute.name =
      ["ATTR_manip_drag_axis", "ATTR_axis_detented"] ∧
    (collect c4State).msgs = [] ∧ (collect c4State).err = none := by decide

/-- C5 (code bug): a strictly descending rotation keyframe table
(`[(1,0), (0,90)]`, strictly decreasing in the tuple order) is rejected
with the `not in ascending or descending order` error, although the
claim, the source comment at line 347 and the error text itself say
descending tables are allowed: `sorted(rotation_keyframe_data[::-1])` at
line 416 sorts ascending exactly like `sorted(rotation_keyframe_data)`,
so the second disjunct never accepts anything new. -/
theorem C5_code_rejects_descending_table :
    kcRotDesc.aaData = [⟨1, 0⟩, ⟨0, 90⟩] ∧
    TableEntry.ble (⟨0, 90⟩ : TableEntry) ⟨1, 0⟩ = true ∧
    TableEntry.beq (⟨1, 0⟩ : TableEntry) ⟨0, 90⟩ = false ∧
    (collect c5State).attrs = [] ∧
    (collect c5State).msgs = [errMsg ("Rotation dataref values for the drag_rotate" ++
      " manipulator attached to Cube are not in ascending or descending order")] ∧
    (collect c5State).err = none := by decide

/-- C1 counterexample: a `drag_rotate` configuration that fails only its
detent-range validation (one error is reported) nevertheless leaves the
primary `ATTR_manip_drag_rotate` directive in the cockpit attribute set
— the primary directive is added at line 571 BEFORE the detent ranges
are validated at lines 689–691, and the failing `return` does not remove
it. -/
theorem C1_counterexample_detent_failure_keeps_primary :
    (collect c1State).errorCount = 1 ∧
    (collect c1State).attrs.map XPlaneAttribute.name = ["ATTR_manip_drag_rotate"] ∧
    (collect c1State).err = none := by decide

/-- C2 counterexample: with `autodetect_datarefs` set, `collect` WRITES
`self.manip.dataref1` and `self.manip.dataref2` (lines 436–441): the
configuration is mutated from `("d1", "d2")` to `("simR", "none")`. -/
theorem C2_counterexample_autodetect_mutates_config :
    c2State.manip.dataref1 = "d1" ∧ c2State.manip.dataref2 = "d2" ∧
    (collect c2State).manip_out.dataref1 = "simR" ∧
    (collect c2State).manip_out.dataref2 = "none" ∧
    (collect c2State).manip_out ≠ c2State.manip := by decide

/-- C6 counterexample: a `drag_rotate` on a parentless rotation-animated
bone whose clamp-filtered rotation has equal first and last angles
(0° → 0°) reports NO error at all: `get_translation_bone` asserts
`bone.parent is not None` (line 122) and the `AssertionError` escapes
before any check runs, so nothing is logged and nothing is emitted. -/
theorem C6_counterexample_orphan_bone_crashes_silently :
    c6State.manip.manipType = MANIP_DRAG_ROTATE ∧
    c6State.bone.rotAnimated = true ∧
    c6State.bone.animations.head? = some ("simR", kcRotFlat) ∧
    filter_clamping_keyframes TableEntry.degrees kcRotFlat.aaData = [⟨0, 0⟩, ⟨1, 0⟩] ∧
    (pyround (0 : PyFloat) 5).beq (pyround 0 5) = true ∧
    (collect c6State).msgs = [] ∧ (collect c6State).attrs = [] ∧
    (collect c6State).err = some .assertionError := by decide

/-- C8 counterexample: on a target version below the threshold (1050 <
1110), a valid three-keyframe `drag_rotate` still emits its interior
`ATTR_manip_keyframe` directive — the keyframe step (lines 698–703) has
no version gate — with no error reported. -/
theorem C8_counterexample_keyframe_directive_ungated :
    c8State.sceneVersion < VERSION_1110 ∧
    (collect c8State).attrs.map XPlaneAttribute.name =
      ["ATTR_manip_drag_rotate", "ATTR_manip_keyframe"] ∧
    (collect c8State).errorCount = 0 ∧ (collect c8State).err = none := by decide

theorem emission_manip_out (st : ManipState) (n : String) (v : List AttrVal)
    (ctx : EmissionCtx) (cfg : ManipConfig) :
    (emission st n v ctx cfg).manip_out = cfg := by
  simp only [emission, emissionTail]
  repeat' split
  all_goals rfl

theorem dadBranch_cfg (st : ManipState) :
    (dragAxisDetentBranch st).cfg = st.manip := by
  simp only [dragAxisDetentBranch]
  repeat' split
  all_goals rfl

theorem dragRotateEmit_cfg (st : ManipState) (rb : XPlaneBone) (tbo : Option XPlaneBone)
    (lift : PyFloat) (ro ra : Vec3) (data cleaned : List TableEntry) (va vb : PyFloat)
    (cfg : ManipConfig) :
    (dragRotateEmit st rb tbo lift ro ra data cleaned va vb cfg).cfg = cfg := by
  simp only [dragRotateEmit]
  repeat' split
  all_goals rfl

theorem autofill_cfg {m : ManipConfig} {rb : XPlaneBone} {tbo : Option XPlaneBone}
    {cfg : ManipConfig} (h : autofillDatarefs m rb tbo = .ok cfg) :
    ∃ d1 d2, cfg = { m with dataref1 := d1, dataref2 := d2 } ∧
      (m.autodetect_datarefs = false → cfg = m) := by
  unfold autofillDatarefs at h
  by_cases ha : m.autodetect_datarefs = true
  · rw [if_pos ha] at h
    cases hdr : rb.datarefs with
    | nil => rw [hdr] at h; cases h
    | cons d1 rest =>
      rw [hdr] at h
      injection h with h
      exact ⟨d1, _, h.symm, by simp [ha]⟩
  · rw [if_neg ha] at h
    injection h with h
    exact ⟨m.dataref1, m.dataref2, h.symm, fun _ => h.symm⟩

theorem drFinish_cfg (st : ManipState) (rb : XPlaneBone) (tbo : Option XPlaneBone)
    (lift : PyFloat) (ro ra : Vec3) (data cleaned : List TableEntry) (va vb : PyFloat) :
    ∃ d1 d2, (dragRotateFinish st rb tbo lift ro ra data cleaned va vb).cfg
        = { st.manip with dataref1 := d1, dataref2 := d2 } ∧
      (st.manip.autodetect_datarefs = false →
        (dragRotateFinish st rb tbo lift ro ra data cleaned va vb).cfg = st.manip) := by
  simp only [dragRotateFinish]
  cases hoa : autofillDatarefs st.manip rb tbo with
  | error e =>
    exact ⟨st.manip.dataref1, st.manip.dataref2, rfl, fun _ => rfl⟩
  | ok cfg1 =>
    obtain ⟨d1, d2, hcfg, hauto⟩ := autofill_cfg hoa
    rw [dragRotateEmit_cfg]
    exact ⟨d1, d2, hcfg, fun hf => hauto hf⟩

theorem drMain_cfg (st : ManipState) (rbo tbo : Option XPlaneBone) (lift : PyFloat) :
    ∃ d1 d2, (dragRotateMain st rbo tbo lift).cfg
        = { st.manip with dataref1 := d1, dataref2 := d2 } ∧
      (st.manip.autodetect_datarefs = false →
        (dragRotateMain st rbo tbo lift).cfg = st.manip) := by
  simp only [dragRotateMain]
  repeat' split
  all_goals first
    | exact drFinish_cfg _ _ _ _ _ _ _ _ _ _
    | exact ⟨st.manip.dataref1, st.manip.dataref2, rfl, fun _ => rfl⟩

theorem drBranch_cfg (st : ManipState) :
    ∃ d1 d2, (dragRotateBranch st).cfg
        = { st.manip with dataref1 := d1, dataref2 := d2 } ∧
      (st.manip.autodetect_datarefs = false → (dragRotateBranch st).cfg = st.manip) := by
  simp only [dragRotateBranch]
  repeat' split
  all_goals first
    | exact drMain_cfg _ _ _ _
    | exact ⟨st.manip.dataref1, st.manip.dataref2, rfl, fun _ => rfl⟩

/-- Every dispatch outcome is the drag-axis-detent branch, the
drag-rotate branch, a simple-variant primary directive emitted with the
empty context and untouched config, or the unknown-type raise. -/
theorem dispatch_shape (st : ManipState) (b : BranchOut) (hb : dispatch st = b) :
    (b = dragAxisDetentBranch st ∧ st.manip.manipType = MANIP_DRAG_AXIS_DETENT)
    ∨ (b = dragRotateBranch st ∧ st.manip.manipType = MANIP_DRAG_ROTATE)
    ∨ (∃ v, b = .emit ("ATTR_manip_" ++ st.manip.manipType) v emptyCtx st.manip
        ∧ st.manip.manipType ≠ MANIP_DRAG_AXIS_DETENT
        ∧ st.manip.manipType ≠ MANIP_DRAG_ROTATE)
    ∨ (∃ ms e, b = .raise ms e st.manip) := by
  unfold dispatch dispatchOn at hb
  by_cases h1 : (st.manip.manipType == MANIP_DRAG_XY) = true
  · rw [if_pos h1] at hb
    refine Or.inr (Or.inr (Or.inl ⟨_, hb.symm, ?_, ?_⟩))
    · intro hc; rw [hc] at h1; exact absurd h1 (by decide)
    · intro hc; rw [hc] at h1; exact absurd h1 (by decide)
  · rw [if_neg h1] at hb
    by_cases h2 : (st.manip.manipType == MANIP_DRAG_AXIS) = true
    · rw [if_pos h2] at hb
      refine Or.inr (Or.inr (Or.inl ⟨_, hb.symm, ?_, ?_⟩))
      · intro hc; rw [hc] at h2; exact absurd h2 (by decide)
      · intro hc; rw [hc] at h2; exact absurd h2 (by decide)
    · rw [if_neg h2] at hb
      by_cases h3 : (st.manip.manipType == MANIP_DRAG_AXIS_PIX) = true
      · rw [if_pos h3] at hb
        refine Or.inr (Or.inr (Or.inl ⟨_, hb.symm, ?_, ?_⟩))
        · intro hc; rw [hc] at h3; exact absurd h3 (by decide)
        · intro hc; rw [hc] at h3; exact absurd h3 (by decide)
      · rw [if_neg h3] at hb
        by_cases h4 : (st.manip.manipType == MANIP_DRAG_AXIS_DETENT) = true
        · rw [if_pos h4] at hb
          exact Or.inl ⟨hb.symm, by simpa using h4⟩
        · rw [if_neg h4] at hb
          by_cases h5 : (st.manip.manipType == MANIP_DRAG_ROTATE) = true
          · rw [if_pos h5] at hb
            exact Or.inr (Or.inl ⟨hb.symm, by simpa using h5⟩)
          · rw [if_neg h5] at hb
            by_cases h6 : (st.manip.manipType == MANIP_COMMAND) = true
            · rw [if_pos h6] at hb
              refine Or.inr (Or.inr (Or.inl ⟨_, hb.symm, ?_, ?_⟩))
              · intro hc; rw [hc] at h6; exact absurd h6 (by decide)
              · intro hc; rw [hc] at h6; exact absurd h6 (by decide)
            · rw [if_neg h6] at hb
              by_cases h7 : (st.manip.manipType == MANIP_COMMAND_AXIS) = true
              · rw [if_pos h7] at hb
                refine Or.inr (Or.inr (Or.inl ⟨_, hb.symm, ?_, ?_⟩))
                · intro hc; rw [hc] at h7; exact absurd h7 (by decide)
                · intro hc; rw [hc] at h7; exact absurd h7 (by decide)
              · rw [if_neg h7] at hb
                by_cases h8 : ((st.manip.manipType == MANIP_COMMAND_KNOB || st.manip.manipType == MANIP_COMMAND_SWITCH_UP_DOWN
        || st.manip.manipType == MANIP_COMMAND_SWITCH_LEFT_RIGHT)) = true
                · rw [if_pos h8] at hb
                  refine Or.inr (Or.inr (Or.inl ⟨_, hb.symm, ?_, ?_⟩))
                  · intro hc; rw [hc] at h8; exact absurd h8 (by decide)
                  · intro hc; rw [hc] at h8; exact absurd h8 (by decide)
                · rw [if_neg h8] at hb
                  by_cases h9 : ((st.manip.manipType == MANIP_COMMAND_KNOB2 || st.manip.manipType == MANIP_COMMAND_SWITCH_UP_DOWN2
        || st.manip.manipType == MANIP_COMMAND_SWITCH_LEFT_RIGHT2)) = true
                  · rw [if_pos h9] at hb
                    refine Or.inr (Or.inr (Or.inl ⟨_, hb.symm, ?_, ?_⟩))
                    · intro hc; rw [hc] at h9; exact absurd h9 (by decide)
                    · intro hc; rw [hc] at h9; exact absurd h9 (by decide)
                  · rw [if_neg h9] at hb
                    by_cases h10 : (st.manip.manipType == MANIP_PUSH) = true
                    · rw [if_pos h10] at hb
                      refine Or.inr (Or.inr (Or.inl ⟨_, hb.symm, ?_, ?_⟩))
                      · intro hc; rw [hc] at h10; exact absurd h10 (by decide)
                      · intro hc; rw [hc] at h10; exact absurd h10 (by decide)
                    · rw [if_neg h10] at hb
                      by_cases h11 : (st.manip.manipType == MANIP_RADIO) = true
                      · rw [if_pos h11] at hb
                        refine Or.inr (Or.inr (Or.inl ⟨_, hb.symm, ?_, ?_⟩))
                        · intro hc; rw [hc] at h11; exact absurd h11 (by decide)
                        · intro hc; rw [hc] at h11; exact absurd h11 (by decide)
                      · rw [if_neg h11] at hb
                        by_cases h12 : (st.manip.manipType == MANIP_TOGGLE) = true
                        · rw [if_pos h12] at hb
                          refine Or.inr (Or.inr (Or.inl ⟨_, hb.symm, ?_, ?_⟩))
                          · intro hc; rw [hc] at h12; exact absurd h12 (by decide)
                          · intro hc; rw [hc] at h12; exact absurd h12 (by decide)
                        · rw [if_neg h12] at hb
                          by_cases h13 : ((st.manip.manipType == MANIP_DELTA || st.manip.manipType == MANIP_WRAP)) = true
                          · rw [if_pos h13] at hb
                            refine Or.inr (Or.inr (Or.inl ⟨_, hb.symm, ?_, ?_⟩))
                            · intro hc; rw [hc] at h13; exact absurd h13 (by decide)
                            · intro hc; rw [hc] at h13; exact absurd h13 (by decide)
                          · rw [if_neg h13] at hb
                            by_cases h14 : ((st.manip.manipType == MANIP_AXIS_SWITCH_UP_DOWN || st.manip.manipType == MANIP_AXIS_SWITCH_LEFT_RIGHT)) = true
                            · rw [if_pos h14] at hb
                              refine Or.inr (Or.inr (Or.inl ⟨_, hb.symm, ?_, ?_⟩))
                              · intro hc; rw [hc] at h14; exact absurd h14 (by decide)
                              · intro hc; rw [hc] at h14; exact absurd h14 (by decide)
                            · rw [if_neg h14] at hb
                              by_cases h15 : (st.manip.manipType == MANIP_NOOP) = true
                              · rw [if_pos h15] at hb
                                refine Or.inr (Or.inr (Or.inl ⟨_, hb.symm, ?_, ?_⟩))
                                · intro hc; rw [hc] at h15; exact absurd h15 (by decide)
                                · intro hc; rw [hc] at h15; exact absurd h15 (by decide)
                              · rw [if_neg h15] at hb
                                exact Or.inr (Or.inr (Or.inr ⟨_, _, hb.symm⟩))

theorem dispatch_cfg (st : ManipState) :
    ∃ d1 d2, (dispatch st).cfg = { st.manip with dataref1 := d1, dataref2 := d2 } ∧
      (st.manip.autodetect_datarefs = false → (dispatch st).cfg = st.manip) := by
  rcases dispatch_shape st (dispatch st) rfl with ⟨h, _⟩ | ⟨h, _⟩ | ⟨v, h, _, _⟩ | ⟨ms, e, h⟩
  · rw [h, dadBranch_cfg st]
    exact ⟨st.manip.dataref1, st.manip.dataref2, rfl, fun _ => rfl⟩
  · rw [h]
    exact drBranch_cfg st
  · rw [h]
    exact ⟨st.manip.dataref1, st.manip.dataref2, rfl, fun _ => rfl⟩
  · rw [h]
    exact ⟨st.manip.dataref1, st.manip.dataref2, rfl, fun _ => rfl⟩

/-- C2 (amended): `collect` is pure on the bone hierarchy and keyframe
collections, and the only mutation it ever performs on its inputs is the
documented dataref auto-fill: the final `self.manip` agrees with the
input configuration on every field except possibly `dataref1` and
`dataref2`, and when `autodetect_datarefs` is unset it is unchanged. -/
theorem C2_amended_only_datarefs_mutated (st : ManipState) :
    ∃ d1 d2, (collect st).manip_out = { st.manip with dataref1 := d1, dataref2 := d2 } ∧
      (st.manip.autodetect_datarefs = false → (collect st).manip_out = st.manip) := by
  unfold collect
  split
  · exact ⟨st.manip.dataref1, st.manip.dataref2, rfl, fun _ => rfl⟩
  · obtain ⟨d1, d2, hcfg, hauto⟩ := dispatch_cfg st
    cases hd : dispatch st with
    | early msgs cfg =>
      rw [hd] at hcfg hauto
      exact ⟨d1, d2, hcfg, hauto⟩
    | raise msgs e cfg =>
      rw [hd] at hcfg hauto
      exact ⟨d1, d2, hcfg, hauto⟩
    | emit n v ctx cfg =>
      rw [hd] at hcfg hauto
      rw [emission_manip_out]
      exact ⟨d1, d2, hcfg, hauto⟩

/-- Witness for C2 (amended) at a configuration with auto-detect off:
the config is returned unchanged. -/
theorem C2_amended_witness :
    baseManip.autodetect_datarefs = false ∧
    (collect ⟨baseManip, "Cube", drBoneSimple, 1110⟩).manip_out = baseManip := by
  refine ⟨rfl, ?_⟩
  obtain ⟨d1, d2, hcfg, hauto⟩ :=
    C2_amended_only_datarefs_mutated ⟨baseManip, "Cube", drBoneSimple, 1110⟩
  exact hauto rfl

/-- `"ATTR_manip_" ++ t` never collides with `ATTR_axis_detented`
(character 5 is `m` vs `a`). -/
theorem attrManip_ne_detented (t : String) :
    ("ATTR_manip_" ++ t) ≠ "ATTR_axis_detented" := by
  intro h
  have hd : ("ATTR_manip_".data ++ t.data)[5]? = "ATTR_axis_detented".data[5]? := by
    rw [← string_data_append, h]
  rw [List.getElem?_append, if_pos (by decide)] at hd
  exact absurd hd (by decide)

/-- `"ATTR_manip_" ++ t` never collides with `ATTR_axis_detent_range`. -/
theorem attrManip_ne_detent_range (t : String) :
    ("ATTR_manip_" ++ t) ≠ "ATTR_axis_detent_range" := by
  intro h
  have hd : ("ATTR_manip_".data ++ t.data)[5]? = "ATTR_axis_detent_range".data[5]? := by
    rw [← string_data_append, h]
  rw [List.getElem?_append, if_pos (by decide)] at hd
  exact absurd hd (by decide)

theorem dragRotateEmit_emit_name (st : ManipState) (rb : XPlaneBone)
    (tbo : Option XPlaneBone) (lift : PyFloat) (ro ra : Vec3)
    (data cleaned : List TableEntry) (va vb : PyFloat) (cfgp : ManipConfig)
    (n : String) (v : List AttrVal) (ctx : EmissionCtx) (cfg : ManipConfig)
    (h : dragRotateEmit st rb tbo lift ro ra data cleaned va vb cfgp = .emit n v ctx cfg) :
    n = "ATTR_manip_" ++ st.manip.manipType := by
  simp only [dragRotateEmit] at h
  repeat' split at h
  all_goals try (cases h)
  all_goals rfl

theorem drFinish_emit_name (st : ManipState) (rb : XPlaneBone)
    (tbo : Option XPlaneBone) (lift : PyFloat) (ro ra : Vec3)
    (data cleaned : List TableEntry) (va vb : PyFloat)
    (n : String) (v : List AttrVal) (ctx : EmissionCtx) (cfg : ManipConfig)
    (h : dragRotateFinish st rb tbo lift ro ra data cleaned va vb = .emit n v ctx cfg) :
    n = "ATTR_manip_" ++ st.manip.manipType := by
  simp only [dragRotateFinish] at h
  split at h
  · cases h
  · exact dragRotateEmit_emit_name st rb tbo lift ro ra data cleaned va vb _ n v ctx cfg h

theorem drMain_emit_name (st : ManipState) (rbo tbo : Option XPlaneBone) (lift : PyFloat)
    (n : String) (v : List AttrVal) (ctx : EmissionCtx) (cfg : ManipConfig)
    (h : dragRotateMain st rbo tbo lift = .emit n v ctx cfg) :
    n = "ATTR_manip_" ++ st.manip.manipType := by
  simp only [dragRotateMain] at h
  repeat' split at h
  all_goals try (cases h)
  all_goals exact drFinish_emit_name _ _ _ _ _ _ _ _ _ _ _ _ _ _ h

theorem drBranch_emit_name (st : ManipState)
    (n : String) (v : List AttrVal) (ctx : EmissionCtx) (cfg : ManipConfig)
    (h : dragRotateBranch st = .emit n v ctx cfg) :
    n = "ATTR_manip_" ++ st.manip.manipType := by
  simp only [dragRotateBranch] at h
  repeat' split at h
  all_goals try (cases h)
  all_goals exact drMain_emit_name _ _ _ _ _ _ _ _ h

theorem dadBranch_emit_name (st : ManipState)
    (n : String) (v : List AttrVal) (ctx : EmissionCtx) (cfg : ManipConfig)
    (h : dragAxisDetentBranch st = .emit n v ctx cfg) :
    n = "ATTR_manip_" ++ MANIP_DRAG_AXIS := by
  simp only [dragAxisDetentBranch] at h
  repeat' split at h
  all_goals try (cases h)
  all_goals rfl

theorem emissionTail_names (st : ManipState) (aSoFar : List XPlaneAttribute)
    (m : List LogMsg) (ctx : EmissionCtx) (cfg : ManipConfig) (a : XPlaneAttribute)
    (ha : a ∈ (emissionTail st aSoFar m ctx cfg).attrs) :
    a ∈ aSoFar ∨ a.name = "ATTR_manip_keyframe" ∨ a.name = "ATTR_manip_wheel" := by
  simp only [emissionTail] at ha
  rcases List.mem_append.mp ha with h1 | h1
  · rcases List.mem_append.mp h1 with h2 | h2
    · exact Or.inl h2
    · refine Or.inr (Or.inl ?f)
      split at h2
      · rcases List.mem_map.mp h2 with ⟨rk, _, hrk⟩
        rw [← hrk]
      · exact absurd h2 (by simp)
  · refine Or.inr (Or.inr ?g)
    split at h1
    · rw [List.mem_singleton.mp h1]
    · exact absurd h1 (by simp)

theorem emissionDetentAttrs_false (st : ManipState) (ctx : EmissionCtx) :
    emissionDetentAttrs st ctx false = .ok [] := by
  simp [emissionDetentAttrs]

theorem emission_low_version_names (st : ManipState) (attr : String) (v : List AttrVal)
    (ctx : EmissionCtx) (cfg : ManipConfig)
    (hver : ¬ st.sceneVersion ≥ VERSION_1110) (a : XPlaneAttribute)
    (ha : a ∈ (emission st attr v ctx cfg).attrs) :
    a.name = attr ∨ a.name = "ATTR_manip_keyframe" ∨ a.name = "ATTR_manip_wheel" := by
  have hvg : decide (st.sceneVersion ≥ VERSION_1110) = false := decide_eq_false hver
  simp only [emission, hvg, Bool.and_false, Bool.false_eq_true, if_false,
    emissionDetentAttrs_false] at ha
  rcases emissionTail_names _ _ _ _ _ _ ha with h | h | h
  · left
    have h2 : a = ⟨attr, v, 0⟩ := by simpa using h
    rw [h2]
  · exact Or.inr (Or.inl h)
  · exact Or.inr (Or.inr h)

/-- C8 (amended): the geometry-dependent companion directives
`ATTR_axis_detented` and `ATTR_axis_detent_range` are emitted only when
the target-format version meets `VERSION_1110`, and are silently omitted
below it: below the threshold no attribute collected for any manipulator
state carries either name.  (The interior `ATTR_manip_keyframe`
directives are NOT version-gated; see the counterexample.) -/
theorem C8_amended_detent_directives_version_gated (st : ManipState)
    (hver : st.sceneVersion < VERSION_1110) :
    ∀ a ∈ (collect st).attrs,
      a.name ≠ "ATTR_axis_detented" ∧ a.name ≠ "ATTR_axis_detent_range" := by
  intro a ha
  by_cases he : (!st.manip.enabled) = true
  · rw [collect, if_pos he] at ha
    exact absurd ha (by simp)
  · rw [collect, if_neg he] at ha
    rcases hd : dispatch st with ⟨ms, cfg⟩ | ⟨ms, e, cfg⟩ | ⟨n, v, ctx, cfg⟩
    · rw [hd] at ha
      exact absurd ha (by simp)
    · rw [hd] at ha
      exact absurd ha (by simp)
    · rw [hd] at ha
      have hn : ∃ t, n = "ATTR_manip_" ++ t := by
        rcases dispatch_shape st (.emit n v ctx cfg) hd with ⟨h, _⟩ | ⟨h, _⟩
          | ⟨v2, h, _, _⟩ | ⟨ms, e, h⟩
        · exact ⟨MANIP_DRAG_AXIS, dadBranch_emit_name st n v ctx cfg h.symm⟩
        · exact ⟨st.manip.manipType, drBranch_emit_name st n v ctx cfg h.symm⟩
        · injection h with h1 h2 h3 h4
          exact ⟨st.manip.manipType, h1⟩
        · cases h
      rcases hn with ⟨t, hnt⟩
      rcases emission_low_version_names st n v ctx cfg (not_le.mpr hver) a ha
        with hna | hna | hna
      · rw [hna, hnt]
        exact ⟨attrManip_ne_detented t, attrManip_ne_detent_range t⟩
      · rw [hna]
        exact ⟨by decide, by decide⟩
      · rw [hna]
        exact ⟨by decide, by decide⟩

/-- Witness for the C8 amendment: the concrete 1050-version drag-rotate
scene satisfies the hypothesis and hence emits no detent directives. -/
theorem C8_amended_witness :
    c8State.sceneVersion < VERSION_1110 ∧
      ∀ a ∈ (collect c8State).attrs,
        a.name ≠ "ATTR_axis_detented" ∧ a.name ≠ "ATTR_axis_detent_range" :=
  ⟨by decide, C8_amended_detent_directives_version_gated c8State (by decide)⟩

theorem PyFloat.blt_asymm (a b : PyFloat) (h : a.blt b = true) : b.blt a = false := by
  simp only [PyFloat.blt, decide_eq_true_eq] at h
  simp only [PyFloat.blt, decide_eq_false_iff_not]
  omega

theorem get_translation_bone_dad (b : XPlaneBone) :
    get_translation_bone MANIP_DRAG_AXIS_DETENT b = .ok (some b) := rfl

theorem dispatchOn_dad (st : ManipState) (m : ManipConfig) :
    dispatchOn st m MANIP_DRAG_AXIS_DETENT = dragAxisDetentBranch st := rfl

theorem driven_by_one (b : XPlaneBone) (dr : String) (kc : KeyframeCollection)
    (h : b.animations = [(dr, kc)]) :
    autodetect_must_be_driven_by_exactly_n_datarefs b 1 = .passed := by
  simp [autodetect_must_be_driven_by_exactly_n_datarefs, h]

theorem kf_count_two (b : XPlaneBone) (dr : String) (kc : KeyframeCollection)
    (c0 c1 : TranslationKeyframe)
    (h : b.animations = [(dr, kc)])
    (hc : getTranslationKeyframeTableNoClamps kc = [c0, c1]) :
    autodetect_keyframe_count_translation b 2 true = .ok .passed := by
  simp [autodetect_keyframe_count_translation, h, hc]

/-- C7: for every `drag_axis_detent` whose scene reaches the orthogonality
check (animated translating parent driven by one dataref, detent bone
driven by one dataref, two non-clamping keyframes each, a manipulator
name on the bone), a drag-axis/detent-axis dot product outside the closed
interval `[-0.01, 0.01]` makes `collect` report exactly one error and
emit nothing (and not crash); a dot product strictly inside the interval
passes the `drag_axis_w_detents_animations_orthogonal` check. -/
theorem C7_detent_orthogonality
    (st : ManipState) (pb : XPlaneBone) (dr1 dr2 mname : String)
    (kc1 kc2 : KeyframeCollection)
    (c0 c1 e0 e1 f0 f1 g0 g1 : TranslationKeyframe)
    (hen : st.manip.enabled = true)
    (hman : st.manip.manipType = MANIP_DRAG_AXIS_DETENT)
    (hp : st.bone.parent = some pb)
    (hpt : pb.transAnimated = true)
    (hpa : pb.animations = [(dr1, kc1)])
    (hba : st.bone.animations = [(dr2, kc2)])
    (hmn : st.bone.manipName = some mname)
    (hc1 : getTranslationKeyframeTableNoClamps kc1 = [c0, c1])
    (hc2 : getTranslationKeyframeTableNoClamps kc2 = [e0, e1])
    (hf0 : kc1.translationTable.head? = some f0)
    (hf1 : kc1.translationTable.getLast? = some f1)
    (hg0 : kc2.translationTable.head? = some g0)
    (hg1 : kc2.translationTable.getLast? = some g1) :
    (((f1.location.sub f0.location).dot (g1.location.sub g0.location)).blt ⟨-1, 100⟩ = true ∨
        PyFloat.blt ⟨1, 100⟩
          ((f1.location.sub f0.location).dot (g1.location.sub g0.location)) = true →
      (collect st).attrs = [] ∧ (collect st).errorCount = 1 ∧ (collect st).err = none) ∧
    (PyFloat.blt ⟨-1, 100⟩
          ((f1.location.sub f0.location).dot (g1.location.sub g0.location)) = true ∧
        ((f1.location.sub f0.location).dot (g1.location.sub g0.location)).blt ⟨1, 100⟩ = true →
      drag_axis_w_detents_animations_orthogonal pb st.bone = .ok .passed) := by
  constructor
  · intro hout
    have hcond : (PyFloat.blt ⟨-1, 100⟩
        ((f1.location.sub f0.location).dot (g1.location.sub g0.location)) &&
        ((f1.location.sub f0.location).dot (g1.location.sub g0.location)).blt ⟨1, 100⟩)
        = false := by
      rcases hout with h | h
      · rw [PyFloat.blt_asymm _ _ h, Bool.false_and]
      · rw [PyFloat.blt_asymm _ _ h, Bool.and_false]
    have hbr : ∃ s, dragAxisDetentBranch st = .early [errMsg s] st.manip := by
      refine ⟨"Location animation for the " ++ mname ++ " manipulator attached to " ++
          st.bone.blenderName ++ " must not be along the main drag animation axis", ?e⟩
      simp [dragAxisDetentBranch, autodetect_must_have_parent, hp, hpt,
        get_translation_bone_dad, driven_by_one pb dr1 kc1 hpa,
        driven_by_one st.bone dr2 kc2 hba, hpa, hba, hc1,
        kf_count_two pb dr1 kc1 c0 c1 hpa hc1, kf_count_two st.bone dr2 kc2 e0 e1 hba hc2,
        get_lift_at_max, hc2, drag_axis_w_detents_animations_orthogonal,
        hf0, hf1, hg0, hg1, hcond, get_manip_from_bone, hmn]
    obtain ⟨s, hbr⟩ := hbr
    have hne : (!st.manip.enabled) = false := by rw [hen]; rfl
    have hdisp : dispatch st = .early [errMsg s] st.manip := by
      unfold dispatch
      rw [hman, dispatchOn_dad, hbr]
    have hcol : collect st = ⟨[], [errMsg s], none, st.manip⟩ := by
      simp only [collect, hne, Bool.false_eq_true, if_false, hdisp]
    rw [hcol]
    exact ⟨rfl, rfl, rfl⟩
  · intro hin
    simp [drag_axis_w_detents_animations_orthogonal, hpa, hba, hf0, hf1, hg0, hg1,
      hin.1, hin.2]

/-- Witness for C7: the parallel-detent scene has dot product 1 (outside
`[-0.01, 0.01]`), so `collect` reports one error and emits nothing. -/
theorem C7_witness :
    (collect c7State).attrs = [] ∧ (collect c7State).errorCount = 1 ∧
      (collect c7State).err = none :=
  (C7_detent_orthogonality c7State dadParentBone "simA" "simB" "drag_axis_detent"
    kcTransX kcTransX ⟨0, vZero⟩ ⟨1, ⟨1, 0, 0⟩⟩ ⟨0, vZero⟩ ⟨1, ⟨1, 0, 0⟩⟩
    ⟨0, vZero⟩ ⟨1, ⟨1, 0, 0⟩⟩ ⟨0, vZero⟩ ⟨1, ⟨1, 0, 0⟩⟩
    rfl rfl rfl rfl rfl rfl rfl (by decide) (by decide) rfl rfl rfl rfl).1
    (Or.inr (by decide))

theorem must_have_parent_shape (b : XPlaneBone) (r : Except PyError CheckRes)
    (hr : autodetect_must_have_parent b = r) :
    (∃ e, r = .error e) ∨ r = .ok .passed := by
  simp only [autodetect_must_have_parent] at hr
  split at hr
  · exact Or.inl ⟨_, hr.symm⟩
  · exact Or.inr hr.symm

theorem driven_by_shape (b : XPlaneBone) (n : ℕ) (r : CheckRes)
    (hr : autodetect_must_be_driven_by_exactly_n_datarefs b n = r) :
    r = .passed ∨ ∃ s, r = .failed [errMsg s] := by
  simp only [autodetect_must_be_driven_by_exactly_n_datarefs] at hr
  repeat' split at hr
  all_goals try (exact Or.inl hr.symm)
  all_goals exact Or.inr ⟨_, hr.symm⟩

theorem rot_axis_shape (b : XPlaneBone) (n : ℕ) (r : Except PyError CheckRes)
    (hr : autodetect_bone_rotated_around_n_axis b n = r) :
    (∃ e, r = .error e) ∨ r = .ok .passed ∨ ∃ s, r = .ok (.failed [errMsg s]) := by
  simp only [autodetect_bone_rotated_around_n_axis] at hr
  repeat' split at hr
  all_goals try (exact Or.inl ⟨_, hr.symm⟩)
  all_goals try (exact Or.inr (Or.inl hr.symm))
  all_goals exact Or.inr (Or.inr ⟨_, hr.symm⟩)

theorem kf_count_shape (b : XPlaneBone) (c : ℕ) (ex : Bool) (r : Except PyError CheckRes)
    (hr : autodetect_keyframe_count_translation b c ex = r) :
    (∃ e, r = .error e) ∨ r = .ok .passed ∨ ∃ s, r = .ok (.failed [errMsg s]) := by
  simp only [autodetect_keyframe_count_translation] at hr
  repeat' split at hr
  all_goals try (exact Or.inl ⟨_, hr.symm⟩)
  all_goals try (exact Or.inr (Or.inl hr.symm))
  all_goals exact Or.inr (Or.inr ⟨_, hr.symm⟩)

theorem parent_rot_shape (b : XPlaneBone) (r : Except PyError CheckRes)
    (hr : autodetect_parent_must_be_animated_for_rotation b false = r) :
    (∃ e, r = .error e) ∨ r = .ok .passed ∨ ∃ s, r = .ok (.failed [errMsg s]) := by
  simp only [autodetect_parent_must_be_animated_for_rotation] at hr
  repeat' split at hr
  all_goals try contradiction
  all_goals try (exact Or.inl ⟨_, hr.symm⟩)
  all_goals try (exact Or.inr (Or.inl hr.symm))
  all_goals exact Or.inr (Or.inr ⟨_, hr.symm⟩)

theorem rot_trans_orth_shape (rbn cb : XPlaneBone) (r : Except PyError CheckRes)
    (hr : autodetect_rotation_translation_animations_orthogonal rbn cb = r) :
    (∃ e, r = .error e) ∨ r = .ok .passed ∨ ∃ s, r = .ok (.failed [errMsg s]) := by
  simp only [autodetect_rotation_translation_animations_orthogonal] at hr
  repeat' split at hr
  all_goals try (exact Or.inl ⟨_, hr.symm⟩)
  all_goals try (exact Or.inr (Or.inl hr.symm))
  all_goals exact Or.inr (Or.inr ⟨_, hr.symm⟩)

theorem dispatchOn_dr (st : ManipState) (m : ManipConfig) :
    dispatchOn st m MANIP_DRAG_ROTATE = dragRotateBranch st := rfl

theorem drEmit_flat_shape (st : ManipState) (rb : XPlaneBone)
    (tbo : Option XPlaneBone) (lift : PyFloat) (ro ra : Vec3)
    (data cleaned : List TableEntry) (va vb : PyFloat) (cfg : ManipConfig)
    (b : BranchOut)
    (hflat : ∀ e0 eN, cleaned.head? = some e0 → cleaned.getLast? = some eN →
      (pyround e0.degrees 5).beq (pyround eN.degrees 5) = true)
    (hb : dragRotateEmit st rb tbo lift ro ra data cleaned va vb cfg = b) :
    (∃ s c2, b = .early [errMsg s] c2) ∨ (∃ ms e c2, b = .raise ms e c2) := by
  simp only [dragRotateEmit] at hb
  cases hh : cleaned.head? with
  | none =>
    cases hl : cleaned.getLast? with
    | none => simp only [hh, hl] at hb; exact Or.inr ⟨_, _, _, hb.symm⟩
    | some eN => simp only [hh, hl] at hb; exact Or.inr ⟨_, _, _, hb.symm⟩
  | some e0 =>
    cases hl : cleaned.getLast? with
    | none => simp only [hh, hl] at hb; exact Or.inr ⟨_, _, _, hb.symm⟩
    | some eN =>
      simp only [hh, hl] at hb
      rw [hflat e0 eN hh hl, if_pos rfl] at hb
      exact Or.inl ⟨_, _, hb.symm⟩

theorem drFinish_flat_shape (st : ManipState) (rb : XPlaneBone)
    (tbo : Option XPlaneBone) (lift : PyFloat) (ro ra : Vec3)
    (data cleaned : List TableEntry) (va vb : PyFloat) (b : BranchOut)
    (hflat : ∀ e0 eN, cleaned.head? = some e0 → cleaned.getLast? = some eN →
      (pyround e0.degrees 5).beq (pyround eN.degrees 5) = true)
    (hb : dragRotateFinish st rb tbo lift ro ra data cleaned va vb = b) :
    (∃ s c2, b = .early [errMsg s] c2) ∨ (∃ ms e c2, b = .raise ms e c2) := by
  simp only [dragRotateFinish] at hb
  cases ha : autofillDatarefs st.manip rb tbo with
  | error e => simp only [ha] at hb; exact Or.inr ⟨_, _, _, hb.symm⟩
  | ok cfg =>
    simp only [ha] at hb
    exact drEmit_flat_shape st rb tbo lift ro ra data cleaned va vb cfg b hflat hb

theorem drMain_flat_shape (st : ManipState) (rb : XPlaneBone)
    (tbo : Option XPlaneBone) (lift : PyFloat) (dr : String)
    (kc : KeyframeCollection) (rest : List (String × KeyframeCollection))
    (b : BranchOut)
    (hra : rb.animations = (dr, kc) :: rest)
    (hflat : ∀ e0 eN,
      (filter_clamping_keyframes TableEntry.degrees kc.aaData).head? = some e0 →
      (filter_clamping_keyframes TableEntry.degrees kc.aaData).getLast? = some eN →
      (pyround e0.degrees 5).beq (pyround eN.degrees 5) = true)
    (hb : dragRotateMain st (some rb) tbo lift = b) :
    (∃ s c2, b = .early [errMsg s] c2) ∨ (∃ ms e c2, b = .raise ms e c2) := by
  simp only [dragRotateMain] at hb
  rcases driven_by_shape rb 1 _ rfl with h1 | ⟨s1, h1⟩
  · simp only [h1] at hb
    rcases rot_axis_shape rb 1 _ rfl with ⟨e2, h2⟩ | h2 | ⟨s2, h2⟩
    · simp only [h2] at hb; exact Or.inr ⟨_, _, _, hb.symm⟩
    · simp only [h2, hra] at hb
      split at hb
      · cases hg : get_manip_from_bone rb with
        | error e => simp only [hg] at hb; exact Or.inr ⟨_, _, _, hb.symm⟩
        | ok mn => simp only [hg] at hb; exact Or.inl ⟨_, _, hb.symm⟩
      · cases tbo with
        | none => exact drFinish_flat_shape _ _ _ _ _ _ _ _ _ _ _ hflat hb
        | some tb =>
          split at hb
          · contradiction
          · rename_i tbx hx
            injection hx with hx
            rw [← hx] at hb
            split at hb
            · rcases rot_trans_orth_shape rb tb _ rfl with ⟨e3, h3⟩ | h3 | ⟨s3, h3⟩
              · simp only [h3] at hb; exact Or.inr ⟨_, _, _, hb.symm⟩
              · simp only [h3] at hb
                exact drFinish_flat_shape _ _ _ _ _ _ _ _ _ _ _ hflat hb
              · simp only [h3] at hb; exact Or.inl ⟨_, _, hb.symm⟩
            · exact drFinish_flat_shape _ _ _ _ _ _ _ _ _ _ _ hflat hb
    · simp only [h2] at hb; exact Or.inl ⟨_, _, hb.symm⟩
  · simp only [h1] at hb; exact Or.inl ⟨_, _, hb.symm⟩

theorem drBranch_flat_shape (st : ManipState) (rb : XPlaneBone) (dr : String)
    (kc : KeyframeCollection) (rest : List (String × KeyframeCollection))
    (b : BranchOut)
    (hrb : get_rotation_bone st.bone = .ok (some rb))
    (hra : rb.animations = (dr, kc) :: rest)
    (hflat : ∀ e0 eN,
      (filter_clamping_keyframes TableEntry.degrees kc.aaData).head? = some e0 →
      (filter_clamping_keyframes TableEntry.degrees kc.aaData).getLast? = some eN →
      (pyround e0.degrees 5).beq (pyround eN.degrees 5) = true)
    (hb : dragRotateBranch st = b) :
    (∃ s c2, b = .early [errMsg s] c2) ∨ (∃ ms e c2, b = .raise ms e c2) := by
  simp only [dragRotateBranch, hrb] at hb
  cases hgt : get_translation_bone MANIP_DRAG_ROTATE st.bone with
  | error e => simp only [hgt] at hb; exact Or.inr ⟨_, _, _, hb.symm⟩
  | ok tbo =>
    simp only [hgt] at hb
    cases tbo with
    | none => exact drMain_flat_shape st rb none 0 dr kc rest b hra hflat hb
    | some tb =>
      split at hb
      case h_2 => contradiction
      rename_i tbx hx
      injection hx with hx
      rw [← hx] at hb
      split at hb
      · rcases driven_by_shape tb 1 _ rfl with h1 | ⟨s1, h1⟩
        · simp only [h1] at hb
          rcases kf_count_shape tb 2 true _ rfl with ⟨e2, h2⟩ | h2 | ⟨s2, h2⟩
          · simp only [h2] at hb; exact Or.inr ⟨_, _, _, hb.symm⟩
          · simp only [h2] at hb
            cases hlm : get_lift_at_max tb with
            | error e => simp only [hlm] at hb; exact Or.inr ⟨_, _, _, hb.symm⟩
            | ok lam =>
              simp only [hlm] at hb
              split at hb
              · exact Or.inl ⟨_, _, hb.symm⟩
              · exact drMain_flat_shape st rb (some tb) lam dr kc rest b hra hflat hb
          · simp only [h2] at hb; exact Or.inl ⟨_, _, hb.symm⟩
        · simp only [h1] at hb; exact Or.inl ⟨_, _, hb.symm⟩
      · rcases must_have_parent_shape tb _ rfl with ⟨e1, h1⟩ | h1
        · simp only [h1] at hb; exact Or.inr ⟨_, _, _, hb.symm⟩
        · simp only [h1] at hb
          rcases parent_rot_shape tb _ rfl with ⟨e2, h2⟩ | h2 | ⟨s2, h2⟩
          · simp only [h2] at hb; exact Or.inr ⟨_, _, _, hb.symm⟩
          · simp only [h2] at hb
            exact drMain_flat_shape st rb (some tb) 0 dr kc rest b hra hflat hb
          · simp only [h2] at hb; exact Or.inl ⟨_, _, hb.symm⟩

/-- C6 (amended): for every `drag_rotate` configuration whose rotation
bone's first rotation, after clamp filtering, has first and last angle
equal when rounded to 5 decimal places, `collect` never adds a directive
to the attribute set; when no exception escapes, it reports at least one
error-severity message.  (The original claim fails without the exception
proviso: invalid surrounding topology can raise — e.g. an
`AssertionError` on a parentless bone — before anything is logged; see
the counterexample.) -/
theorem C6_amended_flat_rotation_never_emits (st : ManipState) (rb : XPlaneBone)
    (dr : String) (kc : KeyframeCollection) (rest : List (String × KeyframeCollection))
    (hen : st.manip.enabled = true)
    (hman : st.manip.manipType = MANIP_DRAG_ROTATE)
    (hrb : get_rotation_bone st.bone = .ok (some rb))
    (hra : rb.animations = (dr, kc) :: rest)
    (hflat : ∀ e0 eN,
      (filter_clamping_keyframes TableEntry.degrees kc.aaData).head? = some e0 →
      (filter_clamping_keyframes TableEntry.degrees kc.aaData).getLast? = some eN →
      (pyround e0.degrees 5).beq (pyround eN.degrees 5) = true) :
    (collect st).attrs = [] ∧
      ((collect st).err = none → 1 ≤ (collect st).errorCount) := by
  have hne : (!st.manip.enabled) = false := by rw [hen]; rfl
  have hdisp : dispatch st = dragRotateBranch st := by
    unfold dispatch
    rw [hman, dispatchOn_dr]
  rcases drBranch_flat_shape st rb dr kc rest (dragRotateBranch st) hrb hra hflat rfl
    with ⟨s, c2, hB⟩ | ⟨ms, e, c2, hB⟩
  · have hcol : collect st = ⟨[], [errMsg s], none, c2⟩ := by
      simp only [collect, hne, Bool.false_eq_true, if_false, hdisp, hB]
    rw [hcol]
    exact ⟨rfl, fun _ => le_refl 1⟩
  · have hcol : collect st = ⟨[], ms, some e, c2⟩ := by
      simp only [collect, hne, Bool.false_eq_true, if_false, hdisp, hB]
    rw [hcol]
    exact ⟨rfl, fun hc => by simp at hc⟩

/-- Witness for the C6 amendment: the flat-rotation orphan scene emits
nothing (here the `AssertionError` path is the one taken, so the error
implication is vacuous, exactly as the amendment allows). -/
theorem C6_amended_witness :
    (collect c6State).attrs = [] ∧
      ((collect c6State).err = none → 1 ≤ (collect c6State).errorCount) :=
  C6_amended_flat_rotation_never_emits c6State drBoneOrphan "simR" kcRotFlat []
    rfl rfl rfl rfl
    (fun e0 eN h0 hN => by
      injection h0 with h0
      injection hN with hN
      rw [← h0, ← hN]
      decide)

theorem validateRangesLoop_true (ranges : List AxisDetentRange) (tb : XPlaneBone)
    (vmax lift : PyFloat) :
    ∀ rem i acc m, validateRangesLoop ranges tb vmax lift i rem acc = .ok (true, m) →
      m = acc := by
  intro rem
  induction rem with
  | nil =>
    intro i acc m h
    simp only [validateRangesLoop, Except.ok.injEq, Prod.mk.injEq] at h
    exact h.2.symm
  | cons r rest ih =>
    intro i acc m h
    simp only [validateRangesLoop] at h
    repeat' split at h
    all_goals try (simp at h)
    all_goals exact ih (i + 1) acc m h

theorem validate_true_count (R : List AxisDetentRange) (tb : XPlaneBone)
    (a b c : PyFloat) (m : List LogMsg)
    (h : validate_axis_detent_ranges R tb a b c = .ok (true, m)) :
    (m.filter (fun x => x.mtype == "error")).length = 0 := by
  simp only [validate_axis_detent_ranges] at h
  split at h
  · simp only [Except.ok.injEq, Prod.mk.injEq] at h
    exact absurd h.1 (by decide)
  · cases hh : R.head? with
    | none => simp only [hh] at h; simp at h
    | some r0 =>
      cases hl : R.getLast? with
      | none => simp only [hh, hl] at h; simp at h
      | some rl =>
        simp only [hh, hl] at h
        split at h
        · simp at h
        · split at h
          · simp at h
          · split at h
            · rw [validateRangesLoop_true R tb b c R 0 _ m h]
              rfl
            · rw [validateRangesLoop_true R tb b c R 0 _ m h]
              rfl

theorem emissionTail_errorCount (st : ManipState) (A : List XPlaneAttribute)
    (m : List LogMsg) (ctx : EmissionCtx) (cfg : ManipConfig) :
    (emissionTail st A m ctx cfg).errorCount =
      (m.filter (fun x => x.mtype == "error")).length := rfl

theorem emissionDetentAttrs_ok_guard_true (st : ManipState) (ctx : EmissionCtx)
    (ver : Bool) (da : List XPlaneAttribute)
    (hg : (st.manip.manipType == MANIP_DRAG_AXIS_DETENT && ver) = true)
    (h : emissionDetentAttrs st ctx ver = .ok da) :
    ∃ dv, da = [⟨"ATTR_axis_detented", dv, 0⟩] := by
  simp only [emissionDetentAttrs] at h
  rw [if_pos hg] at h
  repeat' split at h
  all_goals try (exact Except.noConfusion h)
  all_goals injection h with h1
  all_goals exact ⟨_, h1.symm⟩

theorem emissionDetentAttrs_ok_guard_false (st : ManipState) (ctx : EmissionCtx)
    (ver : Bool) (da : List XPlaneAttribute)
    (hg : (st.manip.manipType == MANIP_DRAG_AXIS_DETENT && ver) = false)
    (h : emissionDetentAttrs st ctx ver = .ok da) :
    da = [] := by
  simp only [emissionDetentAttrs] at h
  rw [hg] at h
  simp only [Bool.false_eq_true, if_false, Except.ok.injEq] at h
  exact h.symm

theorem emission_shape (st : ManipState) (n : String) (v : List AttrVal)
    (ctx : EmissionCtx) (cfg : ManipConfig) (r : CollectResult)
    (hr : emission st n v ctx cfg = r)
    (herr : r.err = none) (hcnt : 1 ≤ r.errorCount) :
    ∃ da, r.attrs = ⟨n, v, 0⟩ :: da ∧
      (st.manip.manipType == MANIP_DRAG_AXIS_DETENT
        || st.manip.manipType == MANIP_DRAG_ROTATE) = true ∧
      ((da = [] ∧ (st.manip.manipType == MANIP_DRAG_AXIS_DETENT) = false) ∨
       ((st.manip.manipType == MANIP_DRAG_AXIS_DETENT) = true ∧
        ∃ dv, da = [⟨"ATTR_axis_detented", dv, 0⟩])) := by
  simp only [emission] at hr
  split at hr
  · rw [← hr] at herr
    simp at herr
  · rename_i da hda
    split at hr
    · rename_i hgate
      split at hr
      · split at hr
        · rw [← hr] at herr
          simp at herr
        · rename_i tb htb
          split at hr
          · rw [← hr] at herr
            simp at herr
          · rw [Bool.and_eq_true] at hgate
            refine ⟨da, by rw [← hr]; rfl, hgate.1, ?_⟩
            by_cases htyp : (st.manip.manipType == MANIP_DRAG_AXIS_DETENT) = true
            · refine Or.inr ⟨htyp, ?_⟩
              have hver := hgate.2
              exact emissionDetentAttrs_ok_guard_true st ctx _ da
                (by rw [htyp, hver]; rfl) hda
            · simp only [Bool.not_eq_true] at htyp
              refine Or.inl ⟨?_, htyp⟩
              exact emissionDetentAttrs_ok_guard_false st ctx _ da
                (by rw [htyp]; rfl) hda
          · rename_i vmsgs hval
            rw [← hr, emissionTail_errorCount] at hcnt
            rw [validate_true_count _ _ _ _ _ _ hval] at hcnt
            exact absurd hcnt (by decide)
      · rw [← hr, emissionTail_errorCount] at hcnt
        exact absurd hcnt (by decide)
    · rw [← hr, emissionTail_errorCount] at hcnt
      exact absurd hcnt (by decide)

/-- C1 (amended): when `collect` finishes without an escaped exception
yet has reported at least one error, the attribute set is either left
empty (checks before the primary directive failed) or — because the
primary directive is added BEFORE detent-range validation — consists of
exactly the primary `drag_axis`/`drag_rotate` directive (plus
`ATTR_axis_detented` for `drag_axis_detent`) left behind by a
detent-range validation failure.  The original "adds no directive at
all" is refuted by the counterexample. -/
theorem C1_amended_failure_leaves_at_most_primary (st : ManipState)
    (herr : (collect st).err = none) (hcnt : 1 ≤ (collect st).errorCount) :
    (collect st).attrs = [] ∨
      (collect st).attrs.map XPlaneAttribute.name =
        ["ATTR_manip_drag_axis", "ATTR_axis_detented"] ∨
      (collect st).attrs.map XPlaneAttribute.name = ["ATTR_manip_drag_rotate"] := by
  by_cases he : (!st.manip.enabled) = true
  · left
    simp only [collect, if_pos he]
  · rcases hd : dispatch st with ⟨ms, cfg⟩ | ⟨ms, e, cfg⟩ | ⟨n, v, ctx, cfg⟩
    · left
      simp only [collect, if_neg he, hd]
    · have hx : (collect st).err = some e := by simp only [collect, if_neg he, hd]
      rw [hx] at herr
      simp at herr
    · have hcol : collect st = emission st n v ctx cfg := by
        simp only [collect, if_neg he, hd]
      rw [hcol] at herr hcnt ⊢
      obtain ⟨da, hattrs, hor, hcase⟩ := emission_shape st n v ctx cfg _ rfl herr hcnt
      rcases dispatch_shape st _ hd with ⟨h, ht⟩ | ⟨h, ht⟩ | ⟨v2, h, hne1, hne2⟩
        | ⟨ms, e, h⟩
      · have hn := dadBranch_emit_name st n v ctx cfg h.symm
        rcases hcase with ⟨hda, hfalse⟩ | ⟨htyp, dv, hda⟩
        · rw [ht] at hfalse
          exact absurd hfalse (by decide)
        · right; left
          rw [hattrs, hda, hn]
          rfl
      · have hn := drBranch_emit_name st n v ctx cfg h.symm
        rcases hcase with ⟨hda, hfalse⟩ | ⟨htyp, dv, hda⟩
        · right; right
          rw [hattrs, hda, hn, ht]
          rfl
        · rw [ht] at htyp
          exact absurd htyp (by decide)
      · rw [Bool.or_eq_true] at hor
        rcases hor with h1 | h1
        · exact absurd (eq_of_beq h1) hne1
        · exact absurd (eq_of_beq h1) hne2
      · exact BranchOut.noConfusion h

/-- Witness for the C1 amendment: the failing-detent-range `drag_rotate`
scene (one error, no exception) keeps exactly its primary directive. -/
theorem C1_amended_witness :
    (collect c1State).attrs = [] ∨
      (collect c1State).attrs.map XPlaneAttribute.name =
        ["ATTR_manip_drag_axis", "ATTR_axis_detented"] ∨
      (collect c1State).attrs.map XPlaneAttribute.name = ["ATTR_manip_drag_rotate"] :=
  C1_amended_failure_leaves_at_most_primary c1State (by decide) (by decide)
